import Mathlib

/-!
Verification of the PCP report-orchestrator scripts (`pcp_layout.py`,
`pcp_layout_v1.py`, `pcp_layout_v2.py`).

The scripts are command-line glue: they validate an archive path and a time
window, check for external tools, and run a fixed list of shell commands,
collecting output files.  This development embeds, per version:

* the time validators (`re.match` against the documented pattern, with
  Python's `$`-before-trailing-newline semantics hand-compiled for the one
  pattern in question),
* `time_to_dir_format` of the v2 script,
* the full control flow of each version's `main` as a trace of events
  (directory creation, file creation, shell invocation, error logging,
  console prints) over an environment oracle describing the file system,
  the search path and the outcome of each shell command, and
* the top-level `__main__` wrappers mapping how `main` terminated to the
  process exit status.

Console text that is pure decoration (separator rules, prompts, column
padding of progress labels) and the text of captured stderr are abstracted;
every event the specification's properties talk about is modelled.
-/

namespace PCP

/-- Match one digit of the regex `\d`: consume the head character when it is a
digit, returning the rest. -/
def matchD : List Char → Option (List Char)
  | c :: cs => if c.isDigit then some cs else none
  | [] => none

/-- Match one literal character of the regex. -/
def matchC (x : Char) : List Char → Option (List Char)
  | c :: cs => if c = x then some cs else none
  | [] => none

/-- Match the common prefix `\d{4}-\d{2}-\d{2} \d{2}:\d{2}` shared by every
version's time pattern, returning the unconsumed suffix. -/
def timeHead (cs : List Char) : Option (List Char) :=
  matchD cs >>= matchD >>= matchD >>= matchD >>= matchC '-' >>= matchD >>= matchD >>=
    matchC '-' >>= matchD >>= matchD >>= matchC ' ' >>= matchD >>= matchD >>=
    matchC ':' >>= matchD >>= matchD

/-- Python's `$` (MULTILINE off): it matches at the end of the string, or just
before a newline that is the last character.  Applied to the unconsumed
suffix, it succeeds iff that suffix is empty or a single newline. -/
def dollarEnd (r : List Char) : Bool :=
  decide (r = [] ∨ r = ['\n'])

/-- Tail of the pattern `(:\d{2})?$` of v1/v2: either the optional group
`:\d\d` matches and `$` holds after it, or (backtracking past the group)
`$` holds directly. -/
def secondsTail (r : List Char) : Bool :=
  (match r with
   | c :: a :: b :: rest => decide (c = ':') && a.isDigit && b.isDigit && dollarEnd rest
   | _ => false) || dollarEnd r

/-- Embed `validate_time` of `pcp_layout_v1.py` and `pcp_layout_v2.py`:
`re.match(r"^\d{4}-\d{2}-\d{2} \d{2}:\d{2}(:\d{2})?$", timestr)` is not None. -/
def validate_time (timestr : String) : Bool :=
  match timeHead timestr.data with
  | some rest => secondsTail rest
  | none => false

/-- Embed `validate_time` of `pcp_layout.py`:
`re.match(r"^\d{4}-\d{2}-\d{2} \d{2}:\d{2}$", timestr)` is not None — no
optional seconds group in this version. -/
def validate_time_v0 (timestr : String) : Bool :=
  match timeHead timestr.data with
  | some rest => dollarEnd rest
  | none => false

/-- Specification-side reading of the documented pattern: the string consists
of exactly `\d{4}-\d{2}-\d{2} \d{2}:\d{2}` followed by `tail` (which the two
entry points below fix to nothing or to a seconds field), with `$` read
strictly as end of string. -/
def SpecTimeCore (s : String) (tail : List Char) : Prop :=
  ∃ y1 y2 y3 y4 o1 o2 d1 d2 h1 h2 n1 n2 : Char,
    (y1.isDigit = true ∧ y2.isDigit = true ∧ y3.isDigit = true ∧ y4.isDigit = true ∧
     o1.isDigit = true ∧ o2.isDigit = true ∧ d1.isDigit = true ∧ d2.isDigit = true ∧
     h1.isDigit = true ∧ h2.isDigit = true ∧ n1.isDigit = true ∧ n2.isDigit = true) ∧
    s.data = y1 :: y2 :: y3 :: y4 :: '-' :: o1 :: o2 :: '-' :: d1 :: d2 :: ' ' ::
      h1 :: h2 :: ':' :: n1 :: n2 :: tail

/-- Specification pattern `^\d{4}-\d{2}-\d{2} \d{2}:\d{2}$`, `$` strict. -/
def SpecTimeNoSec (s : String) : Prop := SpecTimeCore s []

/-- Specification pattern `^\d{4}-\d{2}-\d{2} \d{2}:\d{2}(:\d{2})?$`, `$`
strict: the documented time form, seconds field optional. -/
def SpecTimeFull (s : String) : Prop :=
  SpecTimeCore s [] ∨
    ∃ a b : Char, a.isDigit = true ∧ b.isDigit = true ∧ SpecTimeCore s [':', a, b]

/-- Python list/string slicing `l[a:b]` (for the in-range uses of
`time_to_dir_format`; out-of-range bounds clamp, as in Python). -/
def pySlice (l : List Char) (a b : Nat) : List Char := (l.drop a).take (b - a)

/-- Embed `time_to_dir_format` of `pcp_layout_v2.py`: strip `-`, space and `:`
(`re.sub(r"[- :]", "", timestr)`), slice the result into year, month, day,
hour, minute, and reassemble as `DDMMYYYYHHMM`. -/
def time_to_dir_format (timestr : String) : String :=
  if timestr = "" then "unknown"
  else
    let cleaned := timestr.data.filter (fun c => !(c == '-' || c == ' ' || c == ':'))
    let year := pySlice cleaned 0 4
    let month := pySlice cleaned 4 6
    let day := pySlice cleaned 6 8
    let hour := pySlice cleaned 8 10
    let minute := pySlice cleaned 10 12
    ⟨day ++ month ++ year ++ hour ++ minute⟩

/-- The v2 output directory name, encoding the time window
(`OUTPUT_DIR = f"pcp_analysis-{start_dir}-{end_dir}"`). -/
def outputDir_v2 (start_time end_time : String) : String :=
  "pcp_analysis-" ++ time_to_dir_format start_time ++ "-" ++ time_to_dir_format end_time

/-- Observable events of a run.  `makeDir` is `os.makedirs`, `createFile` is
`open(path, "w")` (creating or truncating `path`), `runShell` is a
`subprocess` invocation of an external command line, `logError` is a
`log_error` call (console echo plus error-log append), `print` is a console
line, `listDir` stands for the interactive directory listing. -/
inductive Ev where
  | makeDir (dir : String)
  | createFile (path : String)
  | runShell (cmd : String)
  | logError (msg : String)
  | print (msg : String)
  | listDir
deriving DecidableEq

/-- How `main()` terminated: normally, via `sys.exit(code)`, by a
`KeyboardInterrupt`, or by any other unexpected exception. -/
inductive MainRes where
  | normal
  | sysExit (code : Nat)
  | kbInterrupt
  | exc
deriving DecidableEq

/-- Final process exit status: a code the program itself determines, or an
exception left unhandled by the script (the interpreter's default applies,
which the program does not control). -/
inductive ExitStatus where
  | code (n : Nat)
  | unhandled (r : MainRes)
deriving DecidableEq

/-- Environment oracle for one run: the command-line arguments after the
program name, the (already entered) interactive inputs, the file-system and
search-path state, the run timestamp of v1, and the behaviour of each shell
command: whether `open` of an output file raises, whether spawning the
command raises, whether the command would outlive the 300 s timeout, and
the exit code it returns when run to completion. -/
structure Env where
  argv : List String
  stdinArchive : String
  stdinStart : String
  stdinEnd : String
  isfile : String → Bool
  which : String → Bool
  timestamp : String
  openOk : String → Bool
  spawnFails : String → Bool
  tooSlow : String → Bool
  cmdCode : String → Nat

/-- Python's `str.strip()` with no argument: remove leading and trailing
whitespace (structural implementation, so that it evaluates in the kernel;
`String.trim` does not). -/
def pyStrip (s : String) : String :=
  ⟨((s.data.dropWhile Char.isWhitespace).reverse.dropWhile Char.isWhitespace).reverse⟩

/-- Path of the shared pmrep configuration file. -/
def CONFIG_FILE : String := "/etc/pcp/pmrep/ora_pmrep.conf"

/-- The `os.path.join` uses in the scripts (plain one-level joins). -/
def pathJoin (a b : String) : String := a ++ "/" ++ b

/-- Archive name the run works with: third-to-last positional argument in
command-line mode, else the stripped interactive input. -/
def chosenArchive (env : Env) : String :=
  match env.argv with
  | [a, _, _] => a
  | _ => pyStrip env.stdinArchive

/-- Start time the run works with (cf. `chosenArchive`). -/
def chosenStart (env : Env) : String :=
  match env.argv with
  | [_, s, _] => s
  | _ => pyStrip env.stdinStart

/-- End time the run works with (cf. `chosenArchive`). -/
def chosenEnd (env : Env) : String :=
  match env.argv with
  | [_, _, e] => e
  | _ => pyStrip env.stdinEnd

/-- Helper of the v0 PMDUMPLOG output name: `logname.replace(' ', '_')`. -/
def underscored (s : String) : String :=
  ⟨s.data.map (fun c => if c = ' ' then '_' else c)⟩

/-- Embed `run_command` of `pcp_layout.py`: open the output file and run the
command with no timeout; a non-zero exit is logged; an exception (from the
`open` or the spawn) is logged; nothing is returned.  The text of the caught
exception object is abstracted to a fixed placeholder. -/
def run_command_v0 (env : Env) (cmd output_file : String) : List Ev :=
  if env.openOk output_file then
    if env.spawnFails cmd then
      [.createFile output_file, .logError ("Exception running '" ++ cmd ++ "': <exception>")]
    else if env.cmdCode cmd ≠ 0 then
      [.createFile output_file, .runShell cmd,
       .logError ("Error: Command '" ++ cmd ++ "' failed. See pcp_analysis/errors.log for details.")]
    else
      [.createFile output_file, .runShell cmd]
  else
    [.logError ("Exception running '" ++ cmd ++ "': <exception>")]

/-- Embed `run_command` of `pcp_layout_v1.py`: open the output file, run the
command with a 300 s timeout, return success iff the command ran to
completion with exit code 0.  The optional extra log lines carrying captured
stderr text, and exception texts, are abstracted. -/
def run_command_v1 (env : Env) (cmd output_file : String) : List Ev × Bool :=
  if env.openOk output_file then
    if env.spawnFails cmd then
      ([.createFile output_file, .logError ("Exception running command: " ++ cmd)], false)
    else if env.tooSlow cmd then
      ([.createFile output_file, .runShell cmd,
        .logError ("Command timed out after 300s: " ++ cmd)], false)
    else if env.cmdCode cmd ≠ 0 then
      ([.createFile output_file, .runShell cmd,
        .logError ("Command failed (rc=" ++ toString (env.cmdCode cmd) ++ "): " ++ cmd)], false)
    else
      ([.createFile output_file, .runShell cmd], true)
  else
    ([.logError ("Exception running command: " ++ cmd)], false)

/-- Embed `run_command` of `pcp_layout_v2.py`: identical control flow to v1,
with the v2 diagnostic texts. -/
def run_command_v2 (env : Env) (cmd output_file : String) : List Ev × Bool :=
  if env.openOk output_file then
    if env.spawnFails cmd then
      ([.createFile output_file, .logError ("Exception running: " ++ cmd ++ " → <exception>")], false)
    else if env.tooSlow cmd then
      ([.createFile output_file, .runShell cmd,
        .logError ("Command timed out after 300s: " ++ cmd)], false)
    else if env.cmdCode cmd ≠ 0 then
      ([.createFile output_file, .runShell cmd,
        .logError ("Command failed (rc=" ++ toString (env.cmdCode cmd) ++ "): " ++ cmd)], false)
    else
      ([.createFile output_file, .runShell cmd], true)
  else
    ([.logError ("Exception running: " ++ cmd ++ " → <exception>")], false)

/-- The fixed `metrics` list of `pcp_layout.py` with the run's values
substituted into each command template. -/
def metrics (logname stime etime : String) : List (String × String × String) :=
  [("PMDUMPLOG", "pmdumplog -z -L '" ++ logname ++ "'",
    "PMDUMPLOG_" ++ underscored logname ++ ".txt"),
   ("Load", "pmrep -z -a '" ++ logname ++ "' -p kernel.all.load -S '@" ++ stime ++
    "' -T '@" ++ etime ++ "'", "Load.txt"),
   ("Atop", "pcp -z -a '" ++ logname ++ "' --start '@" ++ stime ++ "' --finish '@" ++
    etime ++ "' atop", "Atop.txt"),
   ("Mpstat", "pcp -z -a '" ++ logname ++ "' --start '@" ++ stime ++ "' --finish '@" ++
    etime ++ "' mpstat", "Mpstat.txt"),
   ("Memory", "pmrep -z -a '" ++ logname ++ "' -c '" ++ CONFIG_FILE ++
    "' :meminfo-1 -p -S '@" ++ stime ++ "' -T '@" ++ etime ++ "'", "Memory.txt"),
   ("Iostat", "pcp -z -a '" ++ logname ++ "' --start '@" ++ stime ++ "' --finish '@" ++
    etime ++ "' iostat -x t", "Iostat.txt"),
   ("Vmstat", "pmrep -z -a '" ++ logname ++ "' -p -S '@" ++ stime ++ "' -T '@" ++
    etime ++ "' :vmstat", "Vmstat.txt"),
   ("D_state_Blocked", "pmrep -z -a '" ++ logname ++
    "' -p proc.runq.runnable proc.runq.blocked -S '@" ++ stime ++ "' -T '@" ++ etime ++ "'",
    "D_state_Blocked.txt"),
   ("Netstat", "pcp -z -a '" ++ logname ++ "' --start '@" ++ stime ++ "' --finish '@" ++
    etime ++ "' netstat", "Netstat.txt"),
   ("PS", "pcp -z -a '" ++ logname ++ "' --start '@" ++ stime ++ "' --finish '@" ++
    etime ++ "' ps -u", "PS.txt"),
   ("PID_STAT", "pcp -z -a '" ++ logname ++ "' --start '@" ++ stime ++ "' --finish '@" ++
    etime ++ "' pidstat -rl", "PID_STAT.txt"),
   ("Slabinfo", "pmrep -z -c '" ++ CONFIG_FILE ++ "' :slabinfo -a '" ++ logname ++
    "' -p -S '@" ++ stime ++ "' -T '@" ++ etime ++ "'", "Slabinfo.txt"),
   ("Numastat", "pmrep -z -a '" ++ logname ++ "' -c '" ++ CONFIG_FILE ++
    "' :numastat-1 -u -p -S '@" ++ stime ++ "' -T '@" ++ etime ++ "'", "Numastat.txt")]

/-- The fixed `reports` list of `pcp_layout_v1.py` (file names carry the run
timestamp). -/
def reports_v1 (archive start_time end_time ts : String) : List (String × String × String) :=
  [("Archive label & metadata", "pmdumplog -z -L '" ++ archive ++ "'",
    "00_pmdumplog_" ++ ts ++ ".log"),
   ("System load avg", "pmrep -z -a '" ++ archive ++ "' -p kernel.all.load -S '@" ++
    start_time ++ "' -T '@" ++ end_time ++ "'", "01_load_" ++ ts ++ ".log"),
   ("atop", "pcp -z -a '" ++ archive ++ "' --start '@" ++ start_time ++ "' --finish '@" ++
    end_time ++ "' atop", "02_atop_" ++ ts ++ ".log"),
   ("mpstat", "pcp -z -a '" ++ archive ++ "' --start '@" ++ start_time ++ "' --finish '@" ++
    end_time ++ "' mpstat", "03_mpstat_" ++ ts ++ ".log"),
   ("Memory detailed", "pmrep -z -a '" ++ archive ++ "' -c '" ++ CONFIG_FILE ++
    "' :meminfo-1 -p -S '@" ++ start_time ++ "' -T '@" ++ end_time ++ "'",
    "04_memory_" ++ ts ++ ".log"),
   ("iostat extended", "pcp -z -a '" ++ archive ++ "' --start '@" ++ start_time ++
    "' --finish '@" ++ end_time ++ "' iostat -x 1", "05_iostat_" ++ ts ++ ".log"),
   ("vmstat style", "pmrep -z -a '" ++ archive ++ "' -p -S '@" ++ start_time ++
    "' -T '@" ++ end_time ++ "' :vmstat", "06_vmstat_" ++ ts ++ ".log"),
   ("Run queue + blocked", "pmrep -z -a '" ++ archive ++
    "' -p proc.runq.runnable proc.runq.blocked -S '@" ++ start_time ++ "' -T '@" ++
    end_time ++ "'", "07_runq_blocked_" ++ ts ++ ".log"),
   ("netstat", "pcp -z -a '" ++ archive ++ "' --start '@" ++ start_time ++
    "' --finish '@" ++ end_time ++ "' netstat", "08_netstat_" ++ ts ++ ".log"),
   ("ps -u", "pcp -z -a '" ++ archive ++ "' --start '@" ++ start_time ++
    "' --finish '@" ++ end_time ++ "' ps -u", "09_ps_" ++ ts ++ ".log"),
   ("pidstat -rl", "pcp -z -a '" ++ archive ++ "' --start '@" ++ start_time ++
    "' --finish '@" ++ end_time ++ "' pidstat -rl 1", "10_pidstat_" ++ ts ++ ".log"),
   ("Slab allocator", "pmrep -z -a '" ++ archive ++ "' -c '" ++ CONFIG_FILE ++
    "' :slabinfo -p -S '@" ++ start_time ++ "' -T '@" ++ end_time ++ "'",
    "11_slabinfo_" ++ ts ++ ".log"),
   ("Numa statistics", "pmrep -z -a '" ++ archive ++ "' -c '" ++ CONFIG_FILE ++
    "' :numastat-1 -u -p -S '@" ++ start_time ++ "' -T '@" ++ end_time ++ "'",
    "12_numastat_" ++ ts ++ ".log")]

/-- The fixed `reports` list of `pcp_layout_v2.py` (plain file names). -/
def reports_v2 (archive start_time end_time : String) : List (String × String × String) :=
  [("archive-label", "pmdumplog -z -L '" ++ archive ++ "'", "pcp-archive-label"),
   ("load", "pmrep -z -a '" ++ archive ++ "' -p kernel.all.load -S '@" ++ start_time ++
    "' -T '@" ++ end_time ++ "'", "pcp-load"),
   ("atop", "pcp -z -a '" ++ archive ++ "' --start '@" ++ start_time ++ "' --finish '@" ++
    end_time ++ "' atop", "pcp-atop"),
   ("mpstat", "pcp -z -a '" ++ archive ++ "' --start '@" ++ start_time ++ "' --finish '@" ++
    end_time ++ "' mpstat", "pcp-mpstat"),
   ("memory", "pmrep -z -a '" ++ archive ++ "' -c '" ++ CONFIG_FILE ++
    "' :meminfo-1 -p -S '@" ++ start_time ++ "' -T '@" ++ end_time ++ "'", "pcp-memory"),
   ("iostat", "pcp -z -a '" ++ archive ++ "' --start '@" ++ start_time ++
    "' --finish '@" ++ end_time ++ "' iostat -x 1", "pcp-iostat"),
   ("vmstat", "pmrep -z -a '" ++ archive ++ "' -p -S '@" ++ start_time ++ "' -T '@" ++
    end_time ++ "' :vmstat", "pcp-vmstat"),
   ("runq-blocked", "pmrep -z -a '" ++ archive ++
    "' -p proc.runq.runnable proc.runq.blocked -S '@" ++ start_time ++ "' -T '@" ++
    end_time ++ "'", "pcp-runq-blocked"),
   ("netstat", "pcp -z -a '" ++ archive ++ "' --start '@" ++ start_time ++
    "' --finish '@" ++ end_time ++ "' netstat", "pcp-netstat"),
   ("ps", "pcp -z -a '" ++ archive ++ "' --start '@" ++ start_time ++ "' --finish '@" ++
    end_time ++ "' ps -u", "pcp-ps"),
   ("pidstat", "pcp -z -a '" ++ archive ++ "' --start '@" ++ start_time ++
    "' --finish '@" ++ end_time ++ "' pidstat -rl 1", "pcp-pidstat"),
   ("slabinfo", "pmrep -z -a '" ++ archive ++ "' -c '" ++ CONFIG_FILE ++
    "' :slabinfo -p -S '@" ++ start_time ++ "' -T '@" ++ end_time ++ "'", "pcp-slabinfo"),
   ("numastat", "pmrep -z -a '" ++ archive ++ "' -c '" ++ CONFIG_FILE ++
    "' :numastat-1 -u -p -S '@" ++ start_time ++ "' -T '@" ++ end_time ++ "'", "pcp-numastat")]

/-- The v1/v2 report loop: attempt each descriptor in order with the given
`run` function (a `run_command` applied to the environment), printing the
progress label and OK/FAILED per descriptor, and counting successes. -/
def runReports (run : String → String → List Ev × Bool) (dir : String) :
    List (String × String × String) → List Ev × Nat
  | [] => ([], 0)
  | (title, cmd, fname) :: rest =>
    let r := run cmd (pathJoin dir fname)
    let rest' := runReports run dir rest
    ([Ev.print ("→ " ++ title)] ++ r.1 ++ [Ev.print (if r.2 then "OK" else "FAILED")] ++
       rest'.1,
     (if r.2 then 1 else 0) + rest'.2)

/-- The v0 metrics loop: attempt each descriptor in order; no outcome is
collected. -/
def metricsLoop (env : Env) : List (String × String × String) → List Ev
  | [] => []
  | (sec, cmd, out_file) :: rest =>
    [Ev.print ("--- " ++ sec ++ " ---")] ++
      run_command_v0 env cmd (pathJoin "pcp_analysis" out_file) ++
      [Ev.print ("Output for " ++ sec ++ " saved to " ++ pathJoin "pcp_analysis" out_file)] ++
      metricsLoop env rest

/-- The eager archive-metadata command of the interactive path of v1/v2. -/
def metaCmd (archive : String) : String :=
  "pmdumplog -z -L '" ++ archive ++ "' 2>&1"

/-- Interactive archive-metadata preview of `pcp_layout_v1.py` (Popen with a
60 s `communicate` timeout; non-zero exit and failures are logged). -/
def metaPreview_v1 (env : Env) (archive : String) : List Ev :=
  if env.spawnFails (metaCmd archive) then
    [.print "Failed to run pmdumplog -L: <exception>",
     .logError "Exception in pmdumplog -L: <exception>"]
  else if env.tooSlow (metaCmd archive) then
    [.runShell (metaCmd archive), .print "Timeout while reading archive metadata",
     .logError "pmdumplog -L timed out"]
  else if env.cmdCode (metaCmd archive) ≠ 0 then
    [.runShell (metaCmd archive),
     .print ("pmdumplog returned non-zero exit code " ++ toString (env.cmdCode (metaCmd archive))),
     .print "<pmdumplog output>",
     .logError "pmdumplog -L failed: <output>"]
  else
    [.runShell (metaCmd archive), .print "<pmdumplog output>"]

/-- Interactive archive-metadata preview of `pcp_layout_v2.py` (any failure,
including the timeout, is only printed; the exit code is not examined and
nothing is logged — no error log exists yet at this point). -/
def metaPreview_v2 (env : Env) (archive : String) : List Ev :=
  if env.spawnFails (metaCmd archive) then
    [.print "Could not read archive label: <exception>"]
  else if env.tooSlow (metaCmd archive) then
    [.runShell (metaCmd archive), .print "Could not read archive label: <exception>"]
  else
    [.runShell (metaCmd archive), .print "<pmdumplog output>"]

/-- Console events of the interactive input phase of `pcp_layout.py` (empty
in command-line mode). -/
def pre_v0 (env : Env) : List Ev :=
  match env.argv with
  | [_, _, _] => []
  | _ => [Ev.print "List of files in current directory:", Ev.listDir]

/-- The non-fatal warning of `pcp_layout.py` when the config file is absent. -/
def cfgWarn_v0 (env : Env) : List Ev :=
  if env.isfile CONFIG_FILE then []
  else [Ev.logError ("Warning: Configuration file " ++ CONFIG_FILE ++
    " not found. Some metrics may fail.")]

/-- Events of the post-validation part of `pcp_layout.py`: config warning,
banner prints, the metrics loop, the closing lines (no counts). -/
def okEvents_v0 (env : Env) : List Ev :=
  cfgWarn_v0 env ++
    [.print ("Analyzing PCP log file: " ++ chosenArchive env),
     .print ("Time range: " ++ chosenStart env ++ " to " ++ chosenEnd env)] ++
    metricsLoop env (metrics (chosenArchive env) (chosenStart env) (chosenEnd env)) ++
    [.print "\nAnalysis complete. Results saved to pcp_analysis",
     .print "Check pcp_analysis/errors.log for any errors encountered during execution."]

/-- Embed `main()` of `pcp_layout.py`: resolve the three inputs, validate the
log file, both time strings (no-seconds pattern), the three tools (the loop
exits at the first missing one), then run every metric and print the closing
lines.  Returns the events of the call and how it terminated. -/
def main_v0 (env : Env) : List Ev × MainRes :=
  if chosenArchive env = "" ∨ env.isfile (chosenArchive env) = false then
    (pre_v0 env ++
      [.logError ("Error: Log file '" ++ chosenArchive env ++ "' not found")], .sysExit 1)
  else if validate_time_v0 (chosenStart env) = false then
    (pre_v0 env ++ [.logError "Error: Invalid start time format"], .sysExit 1)
  else if validate_time_v0 (chosenEnd env) = false then
    (pre_v0 env ++ [.logError "Error: Invalid end time format"], .sysExit 1)
  else
    match (["pmdumplog", "pmrep", "pcp"].find? (fun t => !(env.which t))) with
    | some tool =>
      (pre_v0 env ++
        [.logError ("Error: " ++ tool ++ " not found. Please install PCP tools.")],
       .sysExit 1)
    | none => (pre_v0 env ++ okEvents_v0 env, .normal)

/-- The whole `pcp_layout.py` process: the module level creates the output
directory and truncates the error log before `main()` runs. -/
def program_v0 (env : Env) : List Ev × MainRes :=
  ([Ev.makeDir "pcp_analysis", Ev.createFile "pcp_analysis/errors.log"] ++ (main_v0 env).1,
   (main_v0 env).2)

/-- Error-log path of a v1 run. -/
def errorLog_v1 (ts : String) : String := "pcp_analysis/errors_" ++ ts ++ ".log"

/-- Events of the interactive input phase of `pcp_layout_v1.py`: the listing,
the metadata banner and the eager preview command — all before the time
prompts (empty in command-line mode). -/
def pre_v1 (env : Env) : List Ev :=
  match env.argv with
  | [_, _, _] => []
  | _ =>
    [Ev.print "\nFiles in current directory:", Ev.listDir,
     Ev.print ("\nReading archive metadata for: " ++ pyStrip env.stdinArchive)] ++
      metaPreview_v1 env (pyStrip env.stdinArchive)

/-- The non-fatal warning of `pcp_layout_v1.py` when the config file is
absent. -/
def cfgWarn_v1 (env : Env) : List Ev :=
  if env.isfile CONFIG_FILE then []
  else [Ev.logError ("Note: " ++ CONFIG_FILE ++ " not found → some pmrep sections may fail")]

/-- Events of the post-validation part of `pcp_layout_v1.py`: config warning,
banner prints, the report loop, the `k/N` summary with the result locations,
and the closing hint when some report failed. -/
def okEvents_v1 (env : Env) : List Ev :=
  cfgWarn_v1 env ++
    [.print ("\nAnalyzing archive : " ++ chosenArchive env),
     .print ("Time window       : " ++ chosenStart env ++ " → " ++ chosenEnd env),
     .print "Output goes to    : pcp_analysis/",
     .print ("Run timestamp     : " ++ env.timestamp ++ "\n")] ++
    (runReports (run_command_v1 env) "pcp_analysis"
      (reports_v1 (chosenArchive env) (chosenStart env) (chosenEnd env) env.timestamp)).1 ++
    [.print ("\nFinished. " ++
       toString (runReports (run_command_v1 env) "pcp_analysis"
         (reports_v1 (chosenArchive env) (chosenStart env) (chosenEnd env) env.timestamp)).2 ++
       "/" ++
       toString (reports_v1 (chosenArchive env) (chosenStart env) (chosenEnd env)
         env.timestamp).length ++
       " sections completed successfully."),
     .print "Results → pcp_analysis/",
     .print ("Errors → errors_" ++ env.timestamp ++ ".log")] ++
    (if (runReports (run_command_v1 env) "pcp_analysis"
          (reports_v1 (chosenArchive env) (chosenStart env) (chosenEnd env)
            env.timestamp)).2 <
        (reports_v1 (chosenArchive env) (chosenStart env) (chosenEnd env)
          env.timestamp).length then
      [Ev.print "\nSome commands failed → see error log for details."]
     else [])

/-- Embed `main()` of `pcp_layout_v1.py`: interactive mode shows the
directory listing and the eager metadata preview before prompting for times;
validation order is archive, then both times, then the (complete) missing
tool list; then the report loop and the summary prints. -/
def main_v1 (env : Env) : List Ev × MainRes :=
  if chosenArchive env = "" ∨ env.isfile (chosenArchive env) = false then
    (pre_v1 env ++ [.logError ("Archive not found: " ++ chosenArchive env)], .sysExit 1)
  else if validate_time (chosenStart env) = false ∨ validate_time (chosenEnd env) = false then
    (pre_v1 env ++
      [.logError "Invalid time format. Use: YYYY-MM-DD HH:MM or YYYY-MM-DD HH:MM:SS"],
     .sysExit 1)
  else if (["pmdumplog", "pmrep", "pcp"].filter (fun t => !(env.which t))).isEmpty = false then
    (pre_v1 env ++
      [.logError ("Missing required tools: " ++ String.intercalate ", "
         (["pmdumplog", "pmrep", "pcp"].filter (fun t => !(env.which t)))),
       .logError "Install package: pcp / pcp-manager / etc."], .sysExit 1)
  else (pre_v1 env ++ okEvents_v1 env, .normal)

/-- The whole `pcp_layout_v1.py` process: the module level creates the output
directory and writes the fresh timestamped error log before `main()` runs. -/
def program_v1 (env : Env) : List Ev × MainRes :=
  ([Ev.makeDir "pcp_analysis", Ev.createFile (errorLog_v1 env.timestamp)] ++ (main_v1 env).1,
   (main_v1 env).2)

/-- Events of the interactive input phase of `pcp_layout_v2.py` (empty in
command-line mode). -/
def pre_v2 (env : Env) : List Ev :=
  match env.argv with
  | [_, _, _] => []
  | _ =>
    [Ev.print "\nFiles in current directory:", Ev.listDir,
     Ev.print ("\nReading archive metadata for: " ++ pyStrip env.stdinArchive)] ++
      metaPreview_v2 env (pyStrip env.stdinArchive)

/-- Events of the post-validation part of `pcp_layout_v2.py`: create the
time-window-named output directory and its error log, banner prints, the
report loop, the `k/N` summary with the result locations, and the closing
hint when some report failed. -/
def okEvents_v2 (env : Env) : List Ev :=
  [.makeDir (outputDir_v2 (chosenStart env) (chosenEnd env)),
   .createFile (pathJoin (outputDir_v2 (chosenStart env) (chosenEnd env)) "errors"),
   .print ("\nOutput directory : " ++ outputDir_v2 (chosenStart env) (chosenEnd env) ++ "/"),
   .print ("Archive          : " ++ chosenArchive env),
   .print ("Time window      : " ++ chosenStart env ++ " → " ++ chosenEnd env ++ "\n")] ++
    (runReports (run_command_v2 env) (outputDir_v2 (chosenStart env) (chosenEnd env))
      (reports_v2 (chosenArchive env) (chosenStart env) (chosenEnd env))).1 ++
    [.print ("\nDone. " ++
       toString (runReports (run_command_v2 env)
         (outputDir_v2 (chosenStart env) (chosenEnd env))
         (reports_v2 (chosenArchive env) (chosenStart env) (chosenEnd env))).2 ++
       "/" ++
       toString (reports_v2 (chosenArchive env) (chosenStart env) (chosenEnd env)).length ++
       " sections completed."),
     .print ("Results in: ./" ++ outputDir_v2 (chosenStart env) (chosenEnd env) ++ "/"),
     .print ("Errors logged to: " ++
       pathJoin (outputDir_v2 (chosenStart env) (chosenEnd env)) "errors")] ++
    (if (runReports (run_command_v2 env) (outputDir_v2 (chosenStart env) (chosenEnd env))
          (reports_v2 (chosenArchive env) (chosenStart env) (chosenEnd env))).2 <
        (reports_v2 (chosenArchive env) (chosenStart env) (chosenEnd env)).length then
      [Ev.print "Some commands failed → check errors file for details."]
     else [])

/-- Embed `main()` of `pcp_layout_v2.py`: like v1 but with no tool check, and
the output directory (named from the time window) and its error log are
created only after validation succeeds. -/
def main_v2 (env : Env) : List Ev × MainRes :=
  if chosenArchive env = "" ∨ env.isfile (chosenArchive env) = false then
    (pre_v2 env ++ [.print ("Error: Archive not found: " ++ chosenArchive env)], .sysExit 1)
  else if validate_time (chosenStart env) = false ∨ validate_time (chosenEnd env) = false then
    (pre_v2 env ++ [.print "Error: Time format should be YYYY-MM-DD HH:MM"], .sysExit 1)
  else (pre_v2 env ++ okEvents_v2 env, .normal)

/-- The `pcp_layout.py` process exit: the script has no top-level handler, so
`sys.exit` codes and normal completion determine the status, while an
interrupt or unexpected exception propagates out of the script unhandled. -/
def script_exit_v0 : MainRes → ExitStatus
  | .normal => .code 0
  | .sysExit n => .code n
  | .kbInterrupt => .unhandled .kbInterrupt
  | .exc => .unhandled .exc

/-- The `pcp_layout_v1.py` top-level handler: `KeyboardInterrupt` exits 130,
any other unexpected exception exits 1, `sys.exit(n)` passes through. -/
def script_exit_v1 : MainRes → ExitStatus
  | .normal => .code 0
  | .sysExit n => .code n
  | .kbInterrupt => .code 130
  | .exc => .code 1

/-- The `pcp_layout_v2.py` top-level handler (same text as v1's). -/
def script_exit_v2 : MainRes → ExitStatus
  | .normal => .code 0
  | .sysExit n => .code n
  | .kbInterrupt => .code 130
  | .exc => .code 1

/-- File-system write events (directory creation, file creation). -/
def Ev.isFsWrite : Ev → Bool
  | .makeDir _ => true
  | .createFile _ => true
  | _ => false

/-- The shell command lines invoked in a trace. -/
def shellsOf (evs : List Ev) : List String :=
  evs.filterMap fun e =>
    match e with
    | .runShell c => some c
    | _ => none

/-- The console lines printed in a trace. -/
def printsOf (evs : List Ev) : List String :=
  evs.filterMap fun e =>
    match e with
    | .print s => some s
    | _ => none

/-- Events one descriptor contributes to the v1/v2 report loop: its progress
label, the `run_command` events, and its OK/FAILED line. -/
def perReport (run : String → String → List Ev × Bool) (dir : String)
    (r : String × String × String) : List Ev :=
  [Ev.print ("→ " ++ r.1)] ++ (run r.2.1 (pathJoin dir r.2.2)).1 ++
    [Ev.print (if (run r.2.1 (pathJoin dir r.2.2)).2 then "OK" else "FAILED")]

/-- Whether one descriptor's command succeeds (its `run_command` returns
True), depending only on the environment and the descriptor itself. -/
def descrOk (run : String → String → List Ev × Bool) (dir : String)
    (r : String × String × String) : Bool :=
  (run r.2.1 (pathJoin dir r.2.2)).2

/-- Validation of `pcp_layout.py` succeeds: non-empty existing log file, both
times match the no-seconds pattern, and no required tool is missing. -/
def passes_v0 (env : Env) : Prop :=
  chosenArchive env ≠ "" ∧ env.isfile (chosenArchive env) = true ∧
  validate_time_v0 (chosenStart env) = true ∧ validate_time_v0 (chosenEnd env) = true ∧
  (["pmdumplog", "pmrep", "pcp"].find? (fun t => !(env.which t))) = none

/-- Validation of `pcp_layout_v1.py` succeeds. -/
def passes_v1 (env : Env) : Prop :=
  chosenArchive env ≠ "" ∧ env.isfile (chosenArchive env) = true ∧
  validate_time (chosenStart env) = true ∧ validate_time (chosenEnd env) = true ∧
  (["pmdumplog", "pmrep", "pcp"].filter (fun t => !(env.which t))) = []

/-- Validation of `pcp_layout_v2.py` succeeds (v2 has no tool check). -/
def passes_v2 (env : Env) : Prop :=
  chosenArchive env ≠ "" ∧ env.isfile (chosenArchive env) = true ∧
  validate_time (chosenStart env) = true ∧ validate_time (chosenEnd env) = true

/-- Substring test on character lists (`pat` occurs somewhere in `l`). -/
def subOf (pat l : List Char) : Bool := l.tails.any (fun t => pat.isPrefixOf t)

/-- Environment of a command-line run whose archive argument names no
existing file (every other aspect benign). -/
def envNoArchive : Env :=
  { argv := ["missing.xz", "2026-01-22 12:00", "2026-01-22 12:01"]
    stdinArchive := ""
    stdinStart := ""
    stdinEnd := ""
    isfile := fun _ => false
    which := fun _ => true
    timestamp := "20260122_120000"
    openOk := fun _ => true
    spawnFails := fun _ => false
    tooSlow := fun _ => false
    cmdCode := fun _ => 0 }

/-- Environment of an interactive run: the archive exists, but the start
time entered is invalid. -/
def envBadTime : Env :=
  { argv := []
    stdinArchive := "a.xz"
    stdinStart := "2026-99-99"
    stdinEnd := "x"
    isfile := fun _ => true
    which := fun _ => true
    timestamp := "20260122_120000"
    openOk := fun _ => true
    spawnFails := fun _ => false
    tooSlow := fun _ => false
    cmdCode := fun _ => 0 }

/-- Environment of a command-line run with valid inputs where no required
tool resolves on the search path. -/
def envNoTools : Env :=
  { argv := ["a.xz", "2026-01-22 12:00", "2026-01-22 12:01"]
    stdinArchive := ""
    stdinStart := ""
    stdinEnd := ""
    isfile := fun _ => true
    which := fun _ => false
    timestamp := "20260122_120000"
    openOk := fun _ => true
    spawnFails := fun _ => false
    tooSlow := fun _ => false
    cmdCode := fun _ => 0 }

/-- Environment of a fully successful command-line run: valid inputs, all
tools present, every command exits 0 in time. -/
def envAllOk : Env :=
  { argv := ["a.xz", "2026-01-22 12:00", "2026-01-22 12:01"]
    stdinArchive := ""
    stdinStart := ""
    stdinEnd := ""
    isfile := fun _ => true
    which := fun _ => true
    timestamp := "20260122_120000"
    openOk := fun _ => true
    spawnFails := fun _ => false
    tooSlow := fun _ => false
    cmdCode := fun _ => 0 }

/-- Environment where opening any output file raises. -/
def envNoOpen : Env :=
  { argv := ["a.xz", "2026-01-22 12:00", "2026-01-22 12:01"]
    stdinArchive := ""
    stdinStart := ""
    stdinEnd := ""
    isfile := fun _ => true
    which := fun _ => true
    timestamp := "20260122_120000"
    openOk := fun _ => false
    spawnFails := fun _ => false
    tooSlow := fun _ => false
    cmdCode := fun _ => 0 }

lemma matchD_eq_some {cs r : List Char} :
    matchD cs = some r ↔ ∃ c, c.isDigit = true ∧ cs = c :: r := by
  cases cs with
  | nil => simp [matchD]
  | cons c cs =>
    simp only [matchD]
    split
    · rename_i h
      constructor
      · rintro h2
        injection h2 with h2
        subst h2
        exact ⟨c, h, rfl⟩
      · rintro ⟨c', _, hEq⟩
        injection hEq with _ h2
        rw [h2]
    · rename_i h
      constructor
      · intro h2
        exact absurd h2 (by simp)
      · rintro ⟨c', hd, hEq⟩
        injection hEq with h1 _
        exact absurd (h1 ▸ hd) h

lemma matchC_eq_some {x : Char} {cs r : List Char} :
    matchC x cs = some r ↔ cs = x :: r := by
  cases cs with
  | nil => simp [matchC]
  | cons c cs =>
    simp only [matchC]
    split
    · rename_i h
      subst h
      constructor
      · rintro h2
        injection h2 with h2
        rw [h2]
      · rintro hEq
        injection hEq with _ h2
        rw [h2]
    · rename_i h
      constructor
      · intro h2
        exact absurd h2 (by simp)
      · rintro hEq
        injection hEq with h1 _
        exact absurd h1 h

lemma timeHead_eq_some {cs rest : List Char} :
    timeHead cs = some rest ↔
      ∃ y1 y2 y3 y4 o1 o2 d1 d2 h1 h2 n1 n2 : Char,
        (y1.isDigit = true ∧ y2.isDigit = true ∧ y3.isDigit = true ∧ y4.isDigit = true ∧
         o1.isDigit = true ∧ o2.isDigit = true ∧ d1.isDigit = true ∧ d2.isDigit = true ∧
         h1.isDigit = true ∧ h2.isDigit = true ∧ n1.isDigit = true ∧ n2.isDigit = true) ∧
        cs = y1 :: y2 :: y3 :: y4 :: '-' :: o1 :: o2 :: '-' :: d1 :: d2 :: ' ' ::
          h1 :: h2 :: ':' :: n1 :: n2 :: rest := by
  constructor
  · intro h
    simp only [timeHead, bind, Option.bind_eq_some, matchD_eq_some, matchC_eq_some] at h
    obtain ⟨a, h, n2, hn2, rfl⟩ := h
    obtain ⟨a, h, n1, hn1, rfl⟩ := h
    obtain ⟨a, h, rfl⟩ := h
    obtain ⟨a, h, h2c, hh2, rfl⟩ := h
    obtain ⟨a, h, h1c, hh1, rfl⟩ := h
    obtain ⟨a, h, rfl⟩ := h
    obtain ⟨a, h, d2, hd2, rfl⟩ := h
    obtain ⟨a, h, d1, hd1, rfl⟩ := h
    obtain ⟨a, h, rfl⟩ := h
    obtain ⟨a, h, o2, ho2, rfl⟩ := h
    obtain ⟨a, h, o1, ho1, rfl⟩ := h
    obtain ⟨a, h, rfl⟩ := h
    obtain ⟨a, h, y4, hy4, rfl⟩ := h
    obtain ⟨a, h, y3, hy3, rfl⟩ := h
    obtain ⟨a, hc1, y2, hy2, ha⟩ := h
    subst ha
    obtain ⟨y1, hy1, hcs⟩ := hc1
    subst hcs
    exact ⟨y1, y2, y3, y4, o1, o2, d1, d2, h1c, h2c, n1, n2,
      ⟨hy1, hy2, hy3, hy4, ho1, ho2, hd1, hd2, hh1, hh2, hn1, hn2⟩, rfl⟩
  · rintro ⟨y1, y2, y3, y4, o1, o2, d1, d2, h1c, h2c, n1, n2,
      ⟨hy1, hy2, hy3, hy4, ho1, ho2, hd1, hd2, hh1, hh2, hn1, hn2⟩, rfl⟩
    simp [timeHead, matchD, matchC, hy1, hy2, hy3, hy4, ho1, ho2, hd1, hd2,
      hh1, hh2, hn1, hn2]

lemma dollarEnd_eq_true {r : List Char} :
    dollarEnd r = true ↔ r = [] ∨ r = ['\n'] := by
  simp [dollarEnd]

lemma secondsTail_eq_true {r : List Char} :
    secondsTail r = true ↔
      r = [] ∨ r = ['\n'] ∨
        ∃ a b : Char, a.isDigit = true ∧ b.isDigit = true ∧
          (r = [':', a, b] ∨ r = [':', a, b, '\n']) := by
  rcases r with _ | ⟨c, r⟩
  · simp [secondsTail, dollarEnd]
  rcases r with _ | ⟨a, r⟩
  · simp [secondsTail, dollarEnd]
  rcases r with _ | ⟨b, r⟩
  · simp [secondsTail, dollarEnd]
  simp only [secondsTail, dollarEnd]
  constructor
  · intro h
    simp only [Bool.or_eq_true, Bool.and_eq_true, decide_eq_true_eq] at h
    rcases h with ⟨⟨⟨rfl, ha⟩, hb⟩, hr | hr⟩ | h
    · right; right
      exact ⟨a, b, ha, hb, Or.inl (by rw [hr])⟩
    · right; right
      exact ⟨a, b, ha, hb, Or.inr (by rw [hr])⟩
    · exact absurd h (by simp)
  · rintro (h | h | ⟨a', b', ha, hb, h | h⟩)
    · exact absurd h (by simp)
    · exact absurd h (by simp)
    · injection h with h1 h
      injection h with h2 h
      injection h with h3 h
      subst h1; subst h2; subst h3; subst h
      simp [ha, hb]
    · injection h with h1 h
      injection h with h2 h
      injection h with h3 h
      subst h1; subst h2; subst h3; subst h
      simp [ha, hb]

/-- Conversion between the string append form and the character-list form of
"`s` is `t` followed by a single newline". -/
lemma eq_append_newline {s t : String} : s = t ++ "\n" ↔ s.data = t.data ++ ['\n'] := by
  have hn : ("\n" : String).data = ['\n'] := rfl
  constructor
  · rintro rfl
    rw [String.data_append, hn]
  · intro h
    apply String.ext
    rw [String.data_append, hn, h]

/-- Characterization of the v1/v2 time validator: it accepts exactly the
strings matching the documented pattern, plus those same strings followed by
one trailing newline (the Python `$` quirk). -/
lemma validate_time_eq_true {s : String} :
    validate_time s = true ↔
      SpecTimeFull s ∨ ∃ t : String, SpecTimeFull t ∧ s = t ++ "\n" := by
  constructor
  · intro h
    unfold validate_time at h
    cases ht : timeHead s.data with
    | none => rw [ht] at h; exact absurd h (by simp)
    | some rest =>
      rw [ht] at h
      obtain ⟨y1, y2, y3, y4, o1, o2, d1, d2, h1c, h2c, n1, n2, hdig, hs⟩ :=
        timeHead_eq_some.mp ht
      rcases secondsTail_eq_true.mp h with rfl | rfl | ⟨a, b, ha, hb, rfl | rfl⟩
      · exact Or.inl (Or.inl ⟨y1, y2, y3, y4, o1, o2, d1, d2, h1c, h2c, n1, n2, hdig, hs⟩)
      · refine Or.inr ⟨⟨[y1, y2, y3, y4, '-', o1, o2, '-', d1, d2, ' ', h1c, h2c, ':', n1, n2]⟩,
          Or.inl ⟨y1, y2, y3, y4, o1, o2, d1, d2, h1c, h2c, n1, n2, hdig, rfl⟩, ?_⟩
        rw [eq_append_newline]
        simpa using hs
      · exact Or.inl (Or.inr ⟨a, b, ha, hb,
          ⟨y1, y2, y3, y4, o1, o2, d1, d2, h1c, h2c, n1, n2, hdig, hs⟩⟩)
      · refine Or.inr ⟨⟨[y1, y2, y3, y4, '-', o1, o2, '-', d1, d2, ' ', h1c, h2c, ':', n1, n2,
          ':', a, b]⟩,
          Or.inr ⟨a, b, ha, hb, ⟨y1, y2, y3, y4, o1, o2, d1, d2, h1c, h2c, n1, n2, hdig, rfl⟩⟩, ?_⟩
        rw [eq_append_newline]
        simpa using hs
  · rintro (hfull | ⟨t, hfull, rfl⟩)
    · rcases hfull with ⟨y1, y2, y3, y4, o1, o2, d1, d2, h1c, h2c, n1, n2, hdig, hs⟩ |
        ⟨a, b, ha, hb, y1, y2, y3, y4, o1, o2, d1, d2, h1c, h2c, n1, n2, hdig, hs⟩
      · unfold validate_time
        rw [timeHead_eq_some.mpr ⟨y1, y2, y3, y4, o1, o2, d1, d2, h1c, h2c, n1, n2, hdig, hs⟩]
        simp [secondsTail, dollarEnd]
      · unfold validate_time
        rw [timeHead_eq_some.mpr ⟨y1, y2, y3, y4, o1, o2, d1, d2, h1c, h2c, n1, n2, hdig, hs⟩]
        simp [secondsTail, dollarEnd, ha, hb]
    · rcases hfull with ⟨y1, y2, y3, y4, o1, o2, d1, d2, h1c, h2c, n1, n2, hdig, hs⟩ |
        ⟨a, b, ha, hb, y1, y2, y3, y4, o1, o2, d1, d2, h1c, h2c, n1, n2, hdig, hs⟩
      · have hd : (t ++ "\n").data =
            y1 :: y2 :: y3 :: y4 :: '-' :: o1 :: o2 :: '-' :: d1 :: d2 :: ' ' ::
              h1c :: h2c :: ':' :: n1 :: n2 :: ['\n'] := by
          simp [hs]
        unfold validate_time
        rw [timeHead_eq_some.mpr ⟨y1, y2, y3, y4, o1, o2, d1, d2, h1c, h2c, n1, n2, hdig, hd⟩]
        simp [secondsTail, dollarEnd]
      · have hd : (t ++ "\n").data =
            y1 :: y2 :: y3 :: y4 :: '-' :: o1 :: o2 :: '-' :: d1 :: d2 :: ' ' ::
              h1c :: h2c :: ':' :: n1 :: n2 :: [':', a, b, '\n'] := by
          simp [hs]
        unfold validate_time
        rw [timeHead_eq_some.mpr ⟨y1, y2, y3, y4, o1, o2, d1, d2, h1c, h2c, n1, n2, hdig, hd⟩]
        simp [secondsTail, dollarEnd, ha, hb]

/-- Characterization of the pcp_layout.py time validator: it accepts exactly
the strings matching the pattern without the seconds group, plus those
followed by one trailing newline. -/
lemma validate_time_v0_eq_true {s : String} :
    validate_time_v0 s = true ↔
      SpecTimeNoSec s ∨ ∃ t : String, SpecTimeNoSec t ∧ s = t ++ "\n" := by
  constructor
  · intro h
    unfold validate_time_v0 at h
    cases ht : timeHead s.data with
    | none => rw [ht] at h; exact absurd h (by simp)
    | some rest =>
      rw [ht] at h
      obtain ⟨y1, y2, y3, y4, o1, o2, d1, d2, h1c, h2c, n1, n2, hdig, hs⟩ :=
        timeHead_eq_some.mp ht
      rcases dollarEnd_eq_true.mp h with rfl | rfl
      · exact Or.inl ⟨y1, y2, y3, y4, o1, o2, d1, d2, h1c, h2c, n1, n2, hdig, hs⟩
      · refine Or.inr ⟨⟨[y1, y2, y3, y4, '-', o1, o2, '-', d1, d2, ' ', h1c, h2c, ':', n1, n2]⟩,
          ⟨y1, y2, y3, y4, o1, o2, d1, d2, h1c, h2c, n1, n2, hdig, rfl⟩, ?_⟩
        rw [eq_append_newline]
        simpa using hs
  · rintro (⟨y1, y2, y3, y4, o1, o2, d1, d2, h1c, h2c, n1, n2, hdig, hs⟩ |
      ⟨t, ⟨y1, y2, y3, y4, o1, o2, d1, d2, h1c, h2c, n1, n2, hdig, hs⟩, rfl⟩)
    · unfold validate_time_v0
      rw [timeHead_eq_some.mpr ⟨y1, y2, y3, y4, o1, o2, d1, d2, h1c, h2c, n1, n2, hdig, hs⟩]
      simp [dollarEnd]
    · have hd : (t ++ "\n").data =
          y1 :: y2 :: y3 :: y4 :: '-' :: o1 :: o2 :: '-' :: d1 :: d2 :: ' ' ::
            h1c :: h2c :: ':' :: n1 :: n2 :: ['\n'] := by
        simp [hs]
      unfold validate_time_v0
      rw [timeHead_eq_some.mpr ⟨y1, y2, y3, y4, o1, o2, d1, d2, h1c, h2c, n1, n2, hdig, hd⟩]
      simp [dollarEnd]

lemma sep_test_of_digit {c : Char} (h : c.isDigit = true) :
    (!(c == '-' || c == ' ' || c == ':')) = true := by
  have h1 : c ≠ '-' := fun e => absurd (e ▸ h) (by decide)
  have h2 : c ≠ ' ' := fun e => absurd (e ▸ h) (by decide)
  have h3 : c ≠ ':' := fun e => absurd (e ▸ h) (by decide)
  simp [h1, h2, h3]

/-- Computation of `time_to_dir_format` on any string whose first sixteen
characters have the validated shape: the result is the day, month, year,
hour and minute digits rearranged, independently of the tail. -/
lemma time_to_dir_format_shape {s : String}
    {y1 y2 y3 y4 o1 o2 d1 d2 h1 h2 n1 n2 : Char} {tail : List Char}
    (hdig : y1.isDigit = true ∧ y2.isDigit = true ∧ y3.isDigit = true ∧ y4.isDigit = true ∧
      o1.isDigit = true ∧ o2.isDigit = true ∧ d1.isDigit = true ∧ d2.isDigit = true ∧
      h1.isDigit = true ∧ h2.isDigit = true ∧ n1.isDigit = true ∧ n2.isDigit = true)
    (hs : s.data = y1 :: y2 :: y3 :: y4 :: '-' :: o1 :: o2 :: '-' :: d1 :: d2 :: ' ' ::
      h1 :: h2 :: ':' :: n1 :: n2 :: tail) :
    time_to_dir_format s = ⟨[d1, d2, o1, o2, y1, y2, y3, y4, h1, h2, n1, n2]⟩ := by
  obtain ⟨hy1, hy2, hy3, hy4, ho1, ho2, hd1, hd2, hh1, hh2, hn1, hn2⟩ := hdig
  have hne : ¬(s = "") := by
    intro he
    rw [he] at hs
    exact absurd hs (by simp)
  have hfil : s.data.filter (fun c => !(c == '-' || c == ' ' || c == ':')) =
      y1 :: y2 :: y3 :: y4 :: o1 :: o2 :: d1 :: d2 :: h1 :: h2 :: n1 :: n2 ::
        tail.filter (fun c => !(c == '-' || c == ' ' || c == ':')) := by
    rw [hs]
    simp only [List.filter_cons, sep_test_of_digit hy1, sep_test_of_digit hy2,
      sep_test_of_digit hy3, sep_test_of_digit hy4, sep_test_of_digit ho1,
      sep_test_of_digit ho2, sep_test_of_digit hd1, sep_test_of_digit hd2,
      sep_test_of_digit hh1, sep_test_of_digit hh2, sep_test_of_digit hn1,
      sep_test_of_digit hn2]
    norm_num
  rw [time_to_dir_format, if_neg hne]
  simp only [hfil]
  rfl

/-- Any accepted string starts with the sixteen-character validated core
(regardless of which optional tail follows). -/
lemma validate_time_head_shape {s : String} (h : validate_time s = true) :
    ∃ y1 y2 y3 y4 o1 o2 d1 d2 h1 h2 n1 n2 : Char, ∃ tail : List Char,
      (y1.isDigit = true ∧ y2.isDigit = true ∧ y3.isDigit = true ∧ y4.isDigit = true ∧
       o1.isDigit = true ∧ o2.isDigit = true ∧ d1.isDigit = true ∧ d2.isDigit = true ∧
       h1.isDigit = true ∧ h2.isDigit = true ∧ n1.isDigit = true ∧ n2.isDigit = true) ∧
      s.data = y1 :: y2 :: y3 :: y4 :: '-' :: o1 :: o2 :: '-' :: d1 :: d2 :: ' ' ::
        h1 :: h2 :: ':' :: n1 :: n2 :: tail := by
  unfold validate_time at h
  cases ht : timeHead s.data with
  | none => rw [ht] at h; exact absurd h (by simp)
  | some rest =>
    obtain ⟨y1, y2, y3, y4, o1, o2, d1, d2, h1c, h2c, n1, n2, hdig, hs⟩ :=
      timeHead_eq_some.mp ht
    exact ⟨y1, y2, y3, y4, o1, o2, d1, d2, h1c, h2c, n1, n2, rest, hdig, hs⟩

/-- Claim C4, counterexample: the claim quantifies over the time validator of
all three versions, but the validator of `pcp_layout.py` has no optional
seconds group, so it rejects `"2026-01-15 12:00:30"` although that string
matches the documented pattern (seconds field present). -/
theorem validate_time_v0_rejects_seconds :
    validate_time_v0 "2026-01-15 12:00:30" = false ∧ SpecTimeFull "2026-01-15 12:00:30" := by
  constructor
  · decide
  · exact Or.inr ⟨'3', '0', by decide, by decide,
      '2', '0', '2', '6', '0', '1', '1', '5', '1', '2', '0', '0', by decide, by decide⟩

/-- Claim C4 (amended): the v1/v2 validator accepts a string iff it matches
the documented pattern strictly, or is such a match followed by one trailing
newline (Python `re.match` `$` semantics); the pcp_layout.py validator does
the same for the pattern without the optional seconds field, so a `:SS`
suffix is accepted only by v1/v2. -/
theorem validate_time_matches_pattern (s : String) :
    (validate_time s = true ↔
      SpecTimeFull s ∨ ∃ t : String, SpecTimeFull t ∧ s = t ++ "\n") ∧
    (validate_time_v0 s = true ↔
      SpecTimeNoSec s ∨ ∃ t : String, SpecTimeNoSec t ∧ s = t ++ "\n") :=
  ⟨validate_time_eq_true, validate_time_v0_eq_true⟩

/-- Claim C10: validated time strings agreeing on their first sixteen
characters (so differing only in the optional seconds field or trailing
newline) have the same `time_to_dir_format` image and therefore the same v2
output-directory name; and on every validated input the result has twelve
characters and is a permutation of the input's first twelve digits
(`DDMMYYYYHHMM`, seconds discarded). -/
theorem time_to_dir_format_spec :
    (∀ s1 e1 s2 e2 : String, validate_time s1 = true → validate_time s2 = true →
      validate_time e1 = true → validate_time e2 = true →
      s1.data.take 16 = s2.data.take 16 → e1.data.take 16 = e2.data.take 16 →
      time_to_dir_format s1 = time_to_dir_format s2 ∧
      outputDir_v2 s1 e1 = outputDir_v2 s2 e2) ∧
    (∀ s : String, validate_time s = true →
      (time_to_dir_format s).length = 12 ∧
      List.Perm (time_to_dir_format s).data ((s.data.filter Char.isDigit).take 12)) := by
  have key : ∀ s t : String, validate_time s = true → validate_time t = true →
      s.data.take 16 = t.data.take 16 → time_to_dir_format s = time_to_dir_format t := by
    intro s t hs ht htake
    obtain ⟨y1, y2, y3, y4, o1, o2, d1, d2, h1c, h2c, n1, n2, tail, hdig, hsd⟩ :=
      validate_time_head_shape hs
    obtain ⟨z1, z2, z3, z4, p1, p2, e1, e2, g1, g2, m1, m2, tail2, hdig2, htd⟩ :=
      validate_time_head_shape ht
    have eq1 : s.data.take 16 =
        [y1, y2, y3, y4, '-', o1, o2, '-', d1, d2, ' ', h1c, h2c, ':', n1, n2] := by
      rw [hsd]
      rfl
    have eq2 : t.data.take 16 =
        [z1, z2, z3, z4, '-', p1, p2, '-', e1, e2, ' ', g1, g2, ':', m1, m2] := by
      rw [htd]
      rfl
    rw [eq1, eq2] at htake
    simp only [List.cons.injEq, and_true] at htake
    obtain ⟨rfl, rfl, rfl, rfl, -, rfl, rfl, -, rfl, rfl, -, rfl, rfl, -, rfl, rfl⟩ := htake
    rw [time_to_dir_format_shape hdig hsd, time_to_dir_format_shape hdig2 htd]
  constructor
  · intro s1 e1 s2 e2 hs1 hs2 he1 he2 hts hte
    have h1 := key s1 s2 hs1 hs2 hts
    have h2 := key e1 e2 he1 he2 hte
    refine ⟨h1, ?_⟩
    rw [outputDir_v2, outputDir_v2, h1, h2]
  · intro s hs
    obtain ⟨y1, y2, y3, y4, o1, o2, d1, d2, h1c, h2c, n1, n2, tail, hdig, hsd⟩ :=
      validate_time_head_shape hs
    obtain ⟨hy1, hy2, hy3, hy4, ho1, ho2, hd1, hd2, hh1, hh2, hn1, hn2⟩ := hdig
    rw [time_to_dir_format_shape
      ⟨hy1, hy2, hy3, hy4, ho1, ho2, hd1, hd2, hh1, hh2, hn1, hn2⟩ hsd]
    constructor
    · rfl
    · have hfil : s.data.filter Char.isDigit =
          y1 :: y2 :: y3 :: y4 :: o1 :: o2 :: d1 :: d2 :: h1c :: h2c :: n1 :: n2 ::
            tail.filter Char.isDigit := by
        have l1 : ('-').isDigit = false := rfl
        have l2 : (' ').isDigit = false := rfl
        have l3 : (':').isDigit = false := rfl
        rw [hsd]
        simp only [List.filter_cons, hy1, hy2, hy3, hy4, ho1, ho2, hd1, hd2,
          hh1, hh2, hn1, hn2, l1, l2, l3]
        norm_num
      have htk : (s.data.filter Char.isDigit).take 12 =
          [y1, y2, y3, y4, o1, o2, d1, d2, h1c, h2c, n1, n2] := by
        rw [hfil]
        rfl
      rw [htk]
      show List.Perm
        ([d1, d2] ++ ([o1, o2] ++ [y1, y2, y3, y4]) ++ [h1c, h2c, n1, n2])
        ([y1, y2, y3, y4] ++ ([o1, o2] ++ [d1, d2]) ++ [h1c, h2c, n1, n2])
      exact (List.perm_append_comm.trans
        (List.perm_append_comm.append_right [d1, d2])).append_right [h1c, h2c, n1, n2]

lemma runReports_spec (run : String → String → List Ev × Bool) (dir : String)
    (rs : List (String × String × String)) :
    (runReports run dir rs).1 = (rs.map (perReport run dir)).flatten ∧
    (runReports run dir rs).2 = (rs.filter (descrOk run dir)).length := by
  induction rs with
  | nil => simp [runReports]
  | cons r rest ih =>
    obtain ⟨t, c, f⟩ := r
    by_cases hok : (run c (pathJoin dir f)).2 = true
    · simp [runReports, perReport, descrOk, ih.1, ih.2, List.filter_cons, hok]
      omega
    · simp only [Bool.not_eq_true] at hok
      simp [runReports, perReport, descrOk, ih.1, ih.2, List.filter_cons, hok]

lemma metaPreview_v1_fs (env : Env) (a : String) :
    (metaPreview_v1 env a).filter Ev.isFsWrite = [] := by
  unfold metaPreview_v1
  split_ifs <;> simp [Ev.isFsWrite]

lemma metaPreview_v2_fs (env : Env) (a : String) :
    (metaPreview_v2 env a).filter Ev.isFsWrite = [] := by
  unfold metaPreview_v2
  split_ifs <;> simp [Ev.isFsWrite]

lemma metaPreview_v1_shells (env : Env) (a : String) :
    shellsOf (metaPreview_v1 env a) = [] ∨
      shellsOf (metaPreview_v1 env a) = [metaCmd a] := by
  unfold metaPreview_v1
  split_ifs
  · left; rfl
  · right; rfl
  · right; rfl
  · right; rfl

lemma metaPreview_v2_shells (env : Env) (a : String) :
    shellsOf (metaPreview_v2 env a) = [] ∨
      shellsOf (metaPreview_v2 env a) = [metaCmd a] := by
  unfold metaPreview_v2
  split_ifs
  · left; rfl
  · right; rfl
  · right; rfl

lemma shellsOf_append (l1 l2 : List Ev) :
    shellsOf (l1 ++ l2) = shellsOf l1 ++ shellsOf l2 := by
  simp [shellsOf]

/-- The v0 pattern is strictly contained in the v1/v2 pattern. -/
lemma validate_time_of_v0 {s : String} (h : validate_time_v0 s = true) :
    validate_time s = true := by
  unfold validate_time_v0 at h
  unfold validate_time
  cases ht : timeHead s.data with
  | none => rw [ht] at h; exact absurd h (by simp)
  | some rest =>
    rw [ht] at h
    rw [secondsTail_eq_true]
    rcases dollarEnd_eq_true.mp h with rfl | rfl
    · exact Or.inl rfl
    · exact Or.inr (Or.inl rfl)

lemma pre_v0_fs (env : Env) : (pre_v0 env).filter Ev.isFsWrite = [] := by
  unfold pre_v0
  rcases env.argv with _ | ⟨a, _ | ⟨b, _ | ⟨c, _ | ⟨d, l⟩⟩⟩⟩ <;> simp [Ev.isFsWrite]

lemma pre_v1_fs (env : Env) : (pre_v1 env).filter Ev.isFsWrite = [] := by
  unfold pre_v1
  rcases env.argv with _ | ⟨a, _ | ⟨b, _ | ⟨c, _ | ⟨d, l⟩⟩⟩⟩ <;>
    simp [List.filter_append, metaPreview_v1_fs, Ev.isFsWrite]

lemma pre_v2_fs (env : Env) : (pre_v2 env).filter Ev.isFsWrite = [] := by
  unfold pre_v2
  rcases env.argv with _ | ⟨a, _ | ⟨b, _ | ⟨c, _ | ⟨d, l⟩⟩⟩⟩ <;>
    simp [List.filter_append, metaPreview_v2_fs, Ev.isFsWrite]

lemma pre_v0_shells (env : Env) : shellsOf (pre_v0 env) = [] := by
  unfold pre_v0
  rcases env.argv with _ | ⟨a, _ | ⟨b, _ | ⟨c, _ | ⟨d, l⟩⟩⟩⟩ <;> simp [shellsOf]

lemma pre_v1_shells (env : Env) :
    shellsOf (pre_v1 env) = [] ∨
      shellsOf (pre_v1 env) = [metaCmd (chosenArchive env)] := by
  have inter : ∀ henv : pre_v1 env =
      [Ev.print "\nFiles in current directory:", Ev.listDir,
       Ev.print ("\nReading archive metadata for: " ++ pyStrip env.stdinArchive)] ++
        metaPreview_v1 env (pyStrip env.stdinArchive),
      ∀ _ : chosenArchive env = pyStrip env.stdinArchive,
      shellsOf (pre_v1 env) = [] ∨
        shellsOf (pre_v1 env) = [metaCmd (chosenArchive env)] := by
    intro h1 h2
    rw [h1, h2, shellsOf_append]
    rcases metaPreview_v1_shells env (pyStrip env.stdinArchive) with hm | hm <;> rw [hm]
    · left; rfl
    · right; rfl
  rcases h : env.argv with _ | ⟨a, _ | ⟨b, _ | ⟨c, _ | ⟨d, l⟩⟩⟩⟩
  · exact inter (by simp [pre_v1, h]) (by simp [chosenArchive, h])
  · exact inter (by simp [pre_v1, h]) (by simp [chosenArchive, h])
  · exact inter (by simp [pre_v1, h]) (by simp [chosenArchive, h])
  · left
    have : pre_v1 env = [] := by simp [pre_v1, h]
    rw [this]
    rfl
  · exact inter (by simp [pre_v1, h]) (by simp [chosenArchive, h])

lemma pre_v2_shells (env : Env) :
    shellsOf (pre_v2 env) = [] ∨
      shellsOf (pre_v2 env) = [metaCmd (chosenArchive env)] := by
  have inter : ∀ henv : pre_v2 env =
      [Ev.print "\nFiles in current directory:", Ev.listDir,
       Ev.print ("\nReading archive metadata for: " ++ pyStrip env.stdinArchive)] ++
        metaPreview_v2 env (pyStrip env.stdinArchive),
      ∀ _ : chosenArchive env = pyStrip env.stdinArchive,
      shellsOf (pre_v2 env) = [] ∨
        shellsOf (pre_v2 env) = [metaCmd (chosenArchive env)] := by
    intro h1 h2
    rw [h1, h2, shellsOf_append]
    rcases metaPreview_v2_shells env (pyStrip env.stdinArchive) with hm | hm <;> rw [hm]
    · left; rfl
    · right; rfl
  rcases h : env.argv with _ | ⟨a, _ | ⟨b, _ | ⟨c, _ | ⟨d, l⟩⟩⟩⟩
  · exact inter (by simp [pre_v2, h]) (by simp [chosenArchive, h])
  · exact inter (by simp [pre_v2, h]) (by simp [chosenArchive, h])
  · exact inter (by simp [pre_v2, h]) (by simp [chosenArchive, h])
  · left
    have : pre_v2 env = [] := by simp [pre_v2, h]
    rw [this]
    rfl
  · exact inter (by simp [pre_v2, h]) (by simp [chosenArchive, h])

lemma pre_v1_cli (env : Env) (h : env.argv.length = 3) : pre_v1 env = [] := by
  rcases h2 : env.argv with _ | ⟨a, _ | ⟨b, _ | ⟨c, _ | ⟨d, l⟩⟩⟩⟩
  · exfalso; rw [h2] at h; simp only [List.length_nil] at h; omega
  · exfalso; rw [h2] at h; simp only [List.length_cons, List.length_nil] at h; omega
  · exfalso; rw [h2] at h; simp only [List.length_cons, List.length_nil] at h; omega
  · simp [pre_v1, h2]
  · exfalso; rw [h2] at h; simp only [List.length_cons] at h; omega

lemma pre_v2_cli (env : Env) (h : env.argv.length = 3) : pre_v2 env = [] := by
  rcases h2 : env.argv with _ | ⟨a, _ | ⟨b, _ | ⟨c, _ | ⟨d, l⟩⟩⟩⟩
  · exfalso; rw [h2] at h; simp only [List.length_nil] at h; omega
  · exfalso; rw [h2] at h; simp only [List.length_cons, List.length_nil] at h; omega
  · exfalso; rw [h2] at h; simp only [List.length_cons, List.length_nil] at h; omega
  · simp [pre_v2, h2]
  · exfalso; rw [h2] at h; simp only [List.length_cons] at h; omega

/-- Claim C1, counterexample: with a non-existing archive argument,
`pcp_layout_v1.py` still creates the output directory and the timestamped
error log (they are created at interpreter startup, before validation), so
the filesystem is not unchanged. -/
theorem program_v1_writes_despite_bad_archive :
    (program_v1 envNoArchive).2 = .sysExit 1 ∧
    Ev.makeDir "pcp_analysis" ∈ (program_v1 envNoArchive).1 ∧
    Ev.createFile "pcp_analysis/errors_20260122_120000.log" ∈ (program_v1 envNoArchive).1 := by
  decide

/-- Claim C1 (amended): a run whose archive path does not refer to an
existing file exits with status 1 in every version; in v2 the run performs
no file-system write at all, but pcp_layout.py and v1 have already created
the output directory and a fresh error log at startup, before validation,
and these are their only file-system writes in such a run. -/
theorem bad_archive_behavior (env : Env) (h : env.isfile (chosenArchive env) = false) :
    (main_v0 env).2 = .sysExit 1 ∧ (main_v1 env).2 = .sysExit 1 ∧
    (main_v2 env).2 = .sysExit 1 ∧
    script_exit_v0 (main_v0 env).2 = .code 1 ∧ script_exit_v1 (main_v1 env).2 = .code 1 ∧
    script_exit_v2 (main_v2 env).2 = .code 1 ∧
    (main_v2 env).1.filter Ev.isFsWrite = [] ∧
    (program_v0 env).1.filter Ev.isFsWrite =
      [Ev.makeDir "pcp_analysis", Ev.createFile "pcp_analysis/errors.log"] ∧
    (program_v1 env).1.filter Ev.isFsWrite =
      [Ev.makeDir "pcp_analysis", Ev.createFile (errorLog_v1 env.timestamp)] := by
  have hc : chosenArchive env = "" ∨ env.isfile (chosenArchive env) = false := Or.inr h
  have m0 : main_v0 env = (pre_v0 env ++
      [.logError ("Error: Log file '" ++ chosenArchive env ++ "' not found")], .sysExit 1) := by
    unfold main_v0
    rw [if_pos hc]
  have m1 : main_v1 env = (pre_v1 env ++
      [.logError ("Archive not found: " ++ chosenArchive env)], .sysExit 1) := by
    unfold main_v1
    rw [if_pos hc]
  have m2 : main_v2 env = (pre_v2 env ++
      [.print ("Error: Archive not found: " ++ chosenArchive env)], .sysExit 1) := by
    unfold main_v2
    rw [if_pos hc]
  refine ⟨by rw [m0], by rw [m1], by rw [m2], by rw [m0]; rfl, by rw [m1]; rfl,
    by rw [m2]; rfl, ?_, ?_, ?_⟩
  · rw [m2]
    simp [List.filter_append, pre_v2_fs, Ev.isFsWrite]
  · simp only [program_v0, m0]
    simp [List.filter_append, pre_v0_fs, Ev.isFsWrite]
  · simp only [program_v1, m1]
    simp [List.filter_append, pre_v1_fs, Ev.isFsWrite]

/-- Claim C1 witness: the amended statement at a concrete run with a missing
archive. -/
theorem bad_archive_behavior_witness :
    envNoArchive.isfile (chosenArchive envNoArchive) = false ∧
    (main_v2 envNoArchive).2 = .sysExit 1 ∧
    (main_v2 envNoArchive).1.filter Ev.isFsWrite = [] := by
  have h : envNoArchive.isfile (chosenArchive envNoArchive) = false := by decide
  exact ⟨h, (bad_archive_behavior envNoArchive h).2.2.1,
    (bad_archive_behavior envNoArchive h).2.2.2.2.2.2.1⟩

/-- Claim C3, counterexample: in the interactive path of v1 and v2 the eager
archive-metadata command runs before the time strings are even read, so a
run with an invalid start time terminates fatally only after an external
command has been invoked. -/
theorem preview_runs_before_time_validation :
    (main_v1 envBadTime).2 = .sysExit 1 ∧
    Ev.runShell (metaCmd "a.xz") ∈ (main_v1 envBadTime).1 ∧
    (main_v2 envBadTime).2 = .sysExit 1 ∧
    Ev.runShell (metaCmd "a.xz") ∈ (main_v2 envBadTime).1 := by
  decide

/-- Claim C3 (amended): with an invalid start or end time the run exits with
status 1 in every version before any report-descriptor command is invoked;
in pcp_layout.py, and in command-line mode of every version, no external
command at all has run, while the interactive path of v1/v2 may already have
invoked the single archive-metadata preview command. -/
theorem bad_time_behavior (env : Env)
    (h : validate_time (chosenStart env) = false ∨ validate_time (chosenEnd env) = false) :
    (main_v0 env).2 = .sysExit 1 ∧ (main_v1 env).2 = .sysExit 1 ∧
    (main_v2 env).2 = .sysExit 1 ∧
    shellsOf (main_v0 env).1 = [] ∧
    ((shellsOf (main_v1 env).1).all (fun c => c == metaCmd (chosenArchive env))) = true ∧
    ((shellsOf (main_v2 env).1).all (fun c => c == metaCmd (chosenArchive env))) = true ∧
    (env.argv.length = 3 →
      shellsOf (main_v1 env).1 = [] ∧ shellsOf (main_v2 env).1 = []) := by
  have mono : ∀ s : String, validate_time s = false → validate_time_v0 s = false := by
    intro s hs
    cases hv : validate_time_v0 s with
    | false => rfl
    | true => rw [validate_time_of_v0 hv] at hs; exact absurd hs (by simp)
  have h0 : validate_time_v0 (chosenStart env) = false ∨
      validate_time_v0 (chosenEnd env) = false := by
    rcases h with h | h
    · exact Or.inl (mono _ h)
    · exact Or.inr (mono _ h)
  have e0 : ∃ msg, main_v0 env = (pre_v0 env ++ [.logError msg], .sysExit 1) := by
    by_cases ha : chosenArchive env = "" ∨ env.isfile (chosenArchive env) = false
    · exact ⟨_, by unfold main_v0; rw [if_pos ha]⟩
    · by_cases hs : validate_time_v0 (chosenStart env) = false
      · exact ⟨_, by unfold main_v0; rw [if_neg ha, if_pos hs]⟩
      · have he : validate_time_v0 (chosenEnd env) = false := by
          rcases h0 with h0 | h0
          · exact absurd h0 hs
          · exact h0
        exact ⟨_, by unfold main_v0; rw [if_neg ha, if_neg hs, if_pos he]⟩
  have e1 : ∃ msg, main_v1 env = (pre_v1 env ++ [.logError msg], .sysExit 1) := by
    by_cases ha : chosenArchive env = "" ∨ env.isfile (chosenArchive env) = false
    · exact ⟨_, by unfold main_v1; rw [if_pos ha]⟩
    · exact ⟨_, by unfold main_v1; rw [if_neg ha, if_pos h]⟩
  have e2 : ∃ msg, main_v2 env = (pre_v2 env ++ [.print msg], .sysExit 1) := by
    by_cases ha : chosenArchive env = "" ∨ env.isfile (chosenArchive env) = false
    · exact ⟨_, by unfold main_v2; rw [if_pos ha]⟩
    · exact ⟨_, by unfold main_v2; rw [if_neg ha, if_pos h]⟩
  obtain ⟨msg0, m0⟩ := e0
  obtain ⟨msg1, m1⟩ := e1
  obtain ⟨msg2, m2⟩ := e2
  refine ⟨by rw [m0], by rw [m1], by rw [m2], ?_, ?_, ?_, ?_⟩
  · rw [m0]
    simp only [shellsOf_append, pre_v0_shells]
    rfl
  · rw [m1]
    simp only [shellsOf_append]
    rcases pre_v1_shells env with hp | hp <;> rw [hp] <;> simp [shellsOf]
  · rw [m2]
    simp only [shellsOf_append]
    rcases pre_v2_shells env with hp | hp <;> rw [hp] <;> simp [shellsOf]
  · intro hlen
    constructor
    · rw [m1, pre_v1_cli env hlen]
      simp [shellsOf]
    · rw [m2, pre_v2_cli env hlen]
      simp [shellsOf]

/-- Claim C3 witness: the amended statement at a concrete interactive run
with an invalid start time. -/
theorem bad_time_behavior_witness :
    validate_time (chosenStart envBadTime) = false ∧
    (main_v1 envBadTime).2 = .sysExit 1 ∧ shellsOf (main_v0 envBadTime).1 = [] := by
  have h : validate_time (chosenStart envBadTime) = false := by decide
  exact ⟨h, (bad_time_behavior envBadTime (Or.inl h)).2.1,
    (bad_time_behavior envBadTime (Or.inl h)).2.2.2.1⟩

/-- Claim C5, counterexample: `pcp_layout_v2.py` performs no tool check at
all — with every required tool missing it still runs all thirteen report
commands and exits 0, instead of aborting with a non-zero status before any
report command. -/
theorem main_v2_runs_reports_without_tools :
    envNoTools.which "pmdumplog" = false ∧ envNoTools.which "pmrep" = false ∧
    envNoTools.which "pcp" = false ∧
    (main_v2 envNoTools).2 = .normal ∧
    (shellsOf (main_v2 envNoTools).1).length = 13 := by
  refine ⟨rfl, rfl, rfl, rfl, ?_⟩
  rfl

/-- Claim C5 (amended): when a required tool is missing and the earlier
validations pass, v1 aborts with exit status 1 before any report command,
with a diagnostic listing every missing tool; `pcp_layout.py` also aborts
with exit status 1 before any report command but its diagnostic names only
the first missing tool; `pcp_layout_v2.py` performs no tool-availability
check — its behaviour does not depend on the search path at all. -/
theorem missing_tools_behavior (env : Env)
    (ha : chosenArchive env ≠ "") (hf : env.isfile (chosenArchive env) = true)
    (hm : (["pmdumplog", "pmrep", "pcp"].filter (fun t => !(env.which t))) ≠ []) :
    ((validate_time (chosenStart env) = true ∧ validate_time (chosenEnd env) = true) →
      (main_v1 env).2 = .sysExit 1 ∧
      Ev.logError ("Missing required tools: " ++ String.intercalate ", "
        (["pmdumplog", "pmrep", "pcp"].filter (fun t => !(env.which t)))) ∈ (main_v1 env).1 ∧
      (∀ c ∈ shellsOf (main_v1 env).1, c = metaCmd (chosenArchive env))) ∧
    ((validate_time_v0 (chosenStart env) = true ∧ validate_time_v0 (chosenEnd env) = true) →
      ∃ t, (["pmdumplog", "pmrep", "pcp"].find? (fun t => !(env.which t))) = some t ∧
        (main_v0 env).2 = .sysExit 1 ∧
        Ev.logError ("Error: " ++ t ++ " not found. Please install PCP tools.") ∈
          (main_v0 env).1 ∧
        shellsOf (main_v0 env).1 = []) ∧
    (∀ w' : String → Bool, main_v2 { env with which := w' } = main_v2 env) := by
  have hc : ¬(chosenArchive env = "" ∨ env.isfile (chosenArchive env) = false) := by
    simp [ha, hf]
  refine ⟨?_, ?_, ?_⟩
  · rintro ⟨h3, h4⟩
    have hne : (["pmdumplog", "pmrep", "pcp"].filter (fun t => !(env.which t))).isEmpty =
        false := by
      cases hl : (["pmdumplog", "pmrep", "pcp"].filter (fun t => !(env.which t))).isEmpty with
      | false => rfl
      | true => exact absurd (List.isEmpty_iff.mp hl) hm
    have m1 : main_v1 env = (pre_v1 env ++
        [.logError ("Missing required tools: " ++ String.intercalate ", "
           (["pmdumplog", "pmrep", "pcp"].filter (fun t => !(env.which t)))),
         .logError "Install package: pcp / pcp-manager / etc."], .sysExit 1) := by
      unfold main_v1
      rw [if_neg hc, if_neg (by simp [h3, h4]), if_pos hne]
    refine ⟨by rw [m1], ?_, ?_⟩
    · rw [m1]
      simp
    · rw [m1]
      simp only [shellsOf_append]
      rcases pre_v1_shells env with hp | hp <;> rw [hp] <;> simp [shellsOf]
  · rintro ⟨h3, h4⟩
    cases hfind : (["pmdumplog", "pmrep", "pcp"].find? (fun t => !(env.which t))) with
    | none =>
      exfalso
      apply hm
      apply List.filter_eq_nil_iff.mpr
      intro t ht
      have := List.find?_eq_none.mp hfind t ht
      simpa using this
    | some t =>
      have m0 : main_v0 env = (pre_v0 env ++
          [.logError ("Error: " ++ t ++ " not found. Please install PCP tools.")],
          .sysExit 1) := by
        unfold main_v0
        rw [if_neg hc, if_neg (by simp [h3]), if_neg (by simp [h4]), hfind]
      refine ⟨t, rfl, by rw [m0], ?_, ?_⟩
      · rw [m0]
        simp
      · rw [m0]
        simp only [shellsOf_append, pre_v0_shells]
        rfl
  · intro w'
    rfl

/-- Claim C5 witness: the amended statement at a concrete run where all
three tools are missing. -/
theorem missing_tools_behavior_witness :
    chosenArchive envNoTools ≠ "" ∧
    (main_v1 envNoTools).2 = .sysExit 1 ∧ (main_v0 envNoTools).2 = .sysExit 1 := by
  have ha : chosenArchive envNoTools ≠ "" := by decide
  have hf : envNoTools.isfile (chosenArchive envNoTools) = true := by decide
  have hm : (["pmdumplog", "pmrep", "pcp"].filter (fun t => !(envNoTools.which t))) ≠ [] := by
    decide
  have h := missing_tools_behavior envNoTools ha hf hm
  refine ⟨ha, (h.1 ⟨by decide, by decide⟩).1, ?_⟩
  obtain ⟨t, -, ht, -⟩ := h.2.1 ⟨by decide, by decide⟩
  exact ht

/-- Claim C6, counterexample: `pcp_layout.py` prints no `k/N` summary — in a
fully successful run (13 of 13 metrics succeed) none of its console lines
contains `13/13`; it only prints the fixed completion and error-log lines. -/
theorem main_v0_no_count_summary :
    (main_v0 envAllOk).2 = .normal ∧
    ((printsOf (main_v0 envAllOk).1).all (fun s => !(subOf ("13/13".data) s.data))) = true ∧
    Ev.print "\nAnalysis complete. Results saved to pcp_analysis" ∈ (main_v0 envAllOk).1 ∧
    Ev.print "Check pcp_analysis/errors.log for any errors encountered during execution." ∈
      (main_v0 envAllOk).1 := by
  refine ⟨rfl, ?_, by decide, by decide⟩
  decide

/-- Claim C6 (amended): after all descriptors are attempted, v1 prints
`Finished. k/13 ...` and v2 prints `Done. k/13 ...`, where `k` is exactly
the number of descriptors whose `run_command` reported success, together
with the output-directory and error-log locations; `pcp_layout.py` prints
its completion and error-log lines with no success counts. -/
theorem summary_prints (env : Env) :
    (passes_v1 env →
      Ev.print ("\nFinished. " ++
        toString ((reports_v1 (chosenArchive env) (chosenStart env) (chosenEnd env)
            env.timestamp).filter (descrOk (run_command_v1 env) "pcp_analysis")).length ++
        "/" ++
        toString (reports_v1 (chosenArchive env) (chosenStart env) (chosenEnd env)
          env.timestamp).length ++
        " sections completed successfully.") ∈ (main_v1 env).1 ∧
      (reports_v1 (chosenArchive env) (chosenStart env) (chosenEnd env)
        env.timestamp).length = 13 ∧
      Ev.print "Results → pcp_analysis/" ∈ (main_v1 env).1 ∧
      Ev.print ("Errors → errors_" ++ env.timestamp ++ ".log") ∈ (main_v1 env).1) ∧
    (passes_v2 env →
      Ev.print ("\nDone. " ++
        toString ((reports_v2 (chosenArchive env) (chosenStart env)
            (chosenEnd env)).filter (descrOk (run_command_v2 env)
            (outputDir_v2 (chosenStart env) (chosenEnd env)))).length ++
        "/" ++
        toString (reports_v2 (chosenArchive env) (chosenStart env) (chosenEnd env)).length ++
        " sections completed.") ∈ (main_v2 env).1 ∧
      (reports_v2 (chosenArchive env) (chosenStart env) (chosenEnd env)).length = 13 ∧
      Ev.print ("Results in: ./" ++ outputDir_v2 (chosenStart env) (chosenEnd env) ++ "/") ∈
        (main_v2 env).1 ∧
      Ev.print ("Errors logged to: " ++
        pathJoin (outputDir_v2 (chosenStart env) (chosenEnd env)) "errors") ∈
        (main_v2 env).1) ∧
    (passes_v0 env →
      Ev.print "\nAnalysis complete. Results saved to pcp_analysis" ∈ (main_v0 env).1 ∧
      Ev.print "Check pcp_analysis/errors.log for any errors encountered during execution." ∈
        (main_v0 env).1) := by
  refine ⟨?_, ?_, ?_⟩
  · intro h
    obtain ⟨h1, h2, h3, h4, h5⟩ := h
    have m1 : main_v1 env = (pre_v1 env ++ okEvents_v1 env, .normal) := by
      unfold main_v1
      rw [if_neg (by simp [h1, h2]), if_neg (by simp [h3, h4]), if_neg (by simp [h5])]
    have hcount := (runReports_spec (run_command_v1 env) "pcp_analysis"
      (reports_v1 (chosenArchive env) (chosenStart env) (chosenEnd env) env.timestamp)).2
    rw [m1, ← hcount]
    refine ⟨?_, by rfl, ?_, ?_⟩ <;>
      · unfold okEvents_v1
        simp [List.mem_append]
  · intro h
    obtain ⟨h1, h2, h3, h4⟩ := h
    have m2 : main_v2 env = (pre_v2 env ++ okEvents_v2 env, .normal) := by
      unfold main_v2
      rw [if_neg (by simp [h1, h2]), if_neg (by simp [h3, h4])]
    have hcount := (runReports_spec (run_command_v2 env)
      (outputDir_v2 (chosenStart env) (chosenEnd env))
      (reports_v2 (chosenArchive env) (chosenStart env) (chosenEnd env))).2
    rw [m2, ← hcount]
    refine ⟨?_, by rfl, ?_, ?_⟩ <;>
      · unfold okEvents_v2
        simp [List.mem_append]
  · intro h
    obtain ⟨h1, h2, h3, h4, h5⟩ := h
    have m0 : main_v0 env = (pre_v0 env ++ okEvents_v0 env, .normal) := by
      unfold main_v0
      rw [if_neg (by simp [h1, h2]), if_neg (by simp [h3]), if_neg (by simp [h4]), h5]
    rw [m0]
    constructor <;>
      · unfold okEvents_v0
        simp [List.mem_append]

/-- Claim C6 witness: the amended statement at a fully successful concrete
run of v1. -/
theorem summary_prints_witness :
    passes_v1 envAllOk ∧
    (reports_v1 (chosenArchive envAllOk) (chosenStart envAllOk) (chosenEnd envAllOk)
      envAllOk.timestamp).length = 13 ∧
    Ev.print "Results → pcp_analysis/" ∈ (main_v1 envAllOk).1 := by
  have hp : passes_v1 envAllOk := by
    unfold passes_v1
    refine ⟨by decide, by decide, by decide, by decide, by decide⟩
  exact ⟨hp, ((summary_prints envAllOk).1 hp).2.1, ((summary_prints envAllOk).1 hp).2.2.1⟩

/-- Claim C7: in the v1/v2 report loop every descriptor is attempted — the
loop's event trace is exactly the concatenation of each descriptor's own
segment, and each descriptor's outcome (`descrOk`) depends only on the
environment and that descriptor, so a failure never affects later
descriptors; the success count is exactly the number of succeeding
descriptors and the failure count exactly the number of failing ones. -/
theorem runReports_isolates_failures (env : Env) (dir : String)
    (rs : List (String × String × String)) :
    (runReports (run_command_v1 env) dir rs).1 =
      (rs.map (perReport (run_command_v1 env) dir)).flatten ∧
    (runReports (run_command_v1 env) dir rs).2 =
      (rs.filter (descrOk (run_command_v1 env) dir)).length ∧
    rs.length - (runReports (run_command_v1 env) dir rs).2 =
      (rs.filter (fun r => !(descrOk (run_command_v1 env) dir r))).length ∧
    (runReports (run_command_v2 env) dir rs).1 =
      (rs.map (perReport (run_command_v2 env) dir)).flatten ∧
    (runReports (run_command_v2 env) dir rs).2 =
      (rs.filter (descrOk (run_command_v2 env) dir)).length ∧
    rs.length - (runReports (run_command_v2 env) dir rs).2 =
      (rs.filter (fun r => !(descrOk (run_command_v2 env) dir r))).length := by
  obtain ⟨e1, c1⟩ := runReports_spec (run_command_v1 env) dir rs
  obtain ⟨e2, c2⟩ := runReports_spec (run_command_v2 env) dir rs
  have len1 := List.length_eq_length_filter_add (l := rs) (descrOk (run_command_v1 env) dir)
  have len2 := List.length_eq_length_filter_add (l := rs) (descrOk (run_command_v2 env) dir)
  refine ⟨e1, c1, ?_, e2, c2, ?_⟩
  · rw [c1]; omega
  · rw [c2]; omega

/-- Claim C8: for every attempted descriptor, exactly one output file is
created whether the command succeeds, fails, times out or raises while
spawning — except when opening the output file itself raises, in which case
no output file is created, the failure is logged, `run_command` reports
failure, and the loop still continues with the remaining descriptors. -/
theorem run_command_output_file (env : Env) (cmd out : String) :
    ((run_command_v0 env cmd out).count (Ev.createFile out) =
      if env.openOk out then 1 else 0) ∧
    ((run_command_v1 env cmd out).1.count (Ev.createFile out) =
      if env.openOk out then 1 else 0) ∧
    ((run_command_v2 env cmd out).1.count (Ev.createFile out) =
      if env.openOk out then 1 else 0) ∧
    (env.openOk out = false →
      (run_command_v1 env cmd out).2 = false ∧
      (run_command_v2 env cmd out).2 = false ∧
      (∃ m, Ev.logError m ∈ run_command_v0 env cmd out) ∧
      (∃ m, Ev.logError m ∈ (run_command_v1 env cmd out).1) ∧
      (∃ m, Ev.logError m ∈ (run_command_v2 env cmd out).1)) ∧
    (∀ (run : String → String → List Ev × Bool) (dir : String)
        (r : String × String × String) (rest : List (String × String × String)),
      runReports run dir (r :: rest) =
        (perReport run dir r ++ (runReports run dir rest).1,
         (if descrOk run dir r then 1 else 0) + (runReports run dir rest).2)) := by
  refine ⟨?_, ?_, ?_, ?_, ?_⟩
  · unfold run_command_v0
    split_ifs <;> simp [List.count_cons]
  · unfold run_command_v1
    split_ifs <;> simp [List.count_cons]
  · unfold run_command_v2
    split_ifs <;> simp [List.count_cons]
  · intro h
    unfold run_command_v1 run_command_v2 run_command_v0
    simp [h]
  · intro run dir r rest
    obtain ⟨t, c, f⟩ := r
    simp [runReports, perReport, descrOk]

/-- Claim C8 witness: the open-failure branch at a concrete environment. -/
theorem run_command_output_file_witness :
    envNoOpen.openOk "pcp_analysis/x" = false ∧
    (run_command_v1 envNoOpen "cmd" "pcp_analysis/x").2 = false := by
  have h := (run_command_output_file envNoOpen "cmd" "pcp_analysis/x").2.2.2.1 (by decide)
  exact ⟨by decide, h.1⟩

/-- Claim C2, counterexample: `pcp_layout.py` has no top-level handler, so a
`KeyboardInterrupt` does not yield exit status 130 there — it leaves the
script unhandled (CPython's default applies, which is not 130 before
Python 3.13). -/
theorem script_exit_v0_interrupt_not_130 :
    script_exit_v0 MainRes.kbInterrupt ≠ ExitStatus.code 130 := by decide

/-- Claim C2 (amended): in v1 and v2 a run whose validation passes finishes
`main` normally and exits 0 regardless of per-report failures, validation
failure exits 1, an unexpected exception exits 1, and an interrupt exits
130; `pcp_layout.py` exits 0 on completion and 1 on validation failure, but
has no top-level handler, so interrupts and unexpected exceptions propagate
out of the script unhandled rather than producing 130 and 1. -/
theorem exit_status_spec :
    (∀ env : Env, passes_v0 env → (main_v0 env).2 = .normal) ∧
    (∀ env : Env, passes_v1 env → (main_v1 env).2 = .normal) ∧
    (∀ env : Env, passes_v2 env → (main_v2 env).2 = .normal) ∧
    (∀ env : Env, env.isfile (chosenArchive env) = false →
      (main_v0 env).2 = .sysExit 1 ∧ (main_v1 env).2 = .sysExit 1 ∧
      (main_v2 env).2 = .sysExit 1) ∧
    (∀ env : Env,
      validate_time (chosenStart env) = false ∨ validate_time (chosenEnd env) = false →
      (main_v1 env).2 = .sysExit 1 ∧ (main_v2 env).2 = .sysExit 1) ∧
    (∀ env : Env,
      validate_time_v0 (chosenStart env) = false ∨ validate_time_v0 (chosenEnd env) = false →
      (main_v0 env).2 = .sysExit 1) ∧
    script_exit_v0 .normal = .code 0 ∧ script_exit_v1 .normal = .code 0 ∧
    script_exit_v2 .normal = .code 0 ∧
    (∀ n, script_exit_v0 (.sysExit n) = .code n ∧ script_exit_v1 (.sysExit n) = .code n ∧
      script_exit_v2 (.sysExit n) = .code n) ∧
    script_exit_v1 .kbInterrupt = .code 130 ∧ script_exit_v2 .kbInterrupt = .code 130 ∧
    script_exit_v1 .exc = .code 1 ∧ script_exit_v2 .exc = .code 1 ∧
    script_exit_v0 .kbInterrupt = .unhandled .kbInterrupt ∧
    script_exit_v0 .exc = .unhandled .exc := by
  refine ⟨?_, ?_, ?_, ?_, ?_, ?_, rfl, rfl, rfl, fun n => ⟨rfl, rfl, rfl⟩,
    rfl, rfl, rfl, rfl, rfl, rfl⟩
  · intro env h
    obtain ⟨h1, h2, h3, h4, h5⟩ := h
    unfold main_v0
    rw [if_neg (by simp [h1, h2]), if_neg (by simp [h3]), if_neg (by simp [h4]), h5]
  · intro env h
    obtain ⟨h1, h2, h3, h4, h5⟩ := h
    unfold main_v1
    rw [if_neg (by simp [h1, h2]), if_neg (by simp [h3, h4]), if_neg (by simp [h5])]
  · intro env h
    obtain ⟨h1, h2, h3, h4⟩ := h
    unfold main_v2
    rw [if_neg (by simp [h1, h2]), if_neg (by simp [h3, h4])]
  · intro env h
    have hc : chosenArchive env = "" ∨ env.isfile (chosenArchive env) = false := Or.inr h
    refine ⟨?_, ?_, ?_⟩
    · unfold main_v0
      rw [if_pos hc]
    · unfold main_v1
      rw [if_pos hc]
    · unfold main_v2
      rw [if_pos hc]
  · intro env h
    by_cases ha : chosenArchive env = "" ∨ env.isfile (chosenArchive env) = false
    · constructor
      · unfold main_v1
        rw [if_pos ha]
      · unfold main_v2
        rw [if_pos ha]
    · constructor
      · unfold main_v1
        rw [if_neg ha, if_pos h]
      · unfold main_v2
        rw [if_neg ha, if_pos h]
  · intro env h
    by_cases ha : chosenArchive env = "" ∨ env.isfile (chosenArchive env) = false
    · unfold main_v0
      rw [if_pos ha]
    · by_cases hs : validate_time_v0 (chosenStart env) = false
      · unfold main_v0
        rw [if_neg ha, if_pos hs]
      · have he : validate_time_v0 (chosenEnd env) = false := by
          rcases h with h | h
          · exact absurd h hs
          · exact h
        unfold main_v0
        rw [if_neg ha, if_neg hs, if_pos he]

/-- Claim C2 witness: the amended statement applied to concrete runs (a fully
successful run of each version exits 0, and a failing-archive run exits 1). -/
theorem exit_status_spec_witness :
    passes_v1 envAllOk ∧ (main_v1 envAllOk).2 = .normal ∧
    envNoArchive.isfile (chosenArchive envNoArchive) = false ∧
    (main_v1 envNoArchive).2 = .sysExit 1 := by
  have hp : passes_v1 envAllOk := by
    unfold passes_v1
    refine ⟨by decide, by decide, by decide, by decide, by decide⟩
  have hn : envNoArchive.isfile (chosenArchive envNoArchive) = false := by decide
  exact ⟨hp, exit_status_spec.2.1 envAllOk hp, hn,
    (exit_status_spec.2.2.2.1 envNoArchive hn).2.1⟩

/-- Claim C9: Python's `$` matches before a final newline, so any string of
the documented time form followed by one trailing newline is accepted by
every version's validator although it is not of the documented form itself,
and such an accepted string is embedded verbatim (newline included) in the
constructed report command lines. -/
theorem trailing_newline_accepted :
    (∀ t : String, SpecTimeFull t → validate_time (t ++ "\n") = true) ∧
    (∀ t : String, SpecTimeNoSec t → validate_time_v0 (t ++ "\n") = true) ∧
    validate_time "2026-01-22 12:00\n" = true ∧
    validate_time_v0 "2026-01-22 12:00\n" = true ∧
    ¬ SpecTimeFull "2026-01-22 12:00\n" ∧
    (∀ archive etime ts : String,
      ∃ r ∈ reports_v1 archive "2026-01-22 12:00\n" etime ts,
        List.IsInfix ("2026-01-22 12:00\n".data) r.2.1.data) := by
  refine ⟨?_, ?_, by decide, by decide, ?_, ?_⟩
  · intro t h
    exact validate_time_eq_true.mpr (Or.inr ⟨t, h, rfl⟩)
  · intro t h
    exact validate_time_v0_eq_true.mpr (Or.inr ⟨t, h, rfl⟩)
  · rintro (⟨y1, y2, y3, y4, o1, o2, d1, d2, h1c, h2c, n1, n2, hdig, hs⟩ |
      ⟨a, b, ha, hb, y1, y2, y3, y4, o1, o2, d1, d2, h1c, h2c, n1, n2, hdig, hs⟩)
    · have hl := congrArg List.length hs
      rw [show ("2026-01-22 12:00\n".data).length = 17 from rfl] at hl
      simp at hl
    · have hl := congrArg List.length hs
      rw [show ("2026-01-22 12:00\n".data).length = 17 from rfl] at hl
      simp at hl
  · intro archive etime ts
    simp only [reports_v1]
    refine ⟨_, List.mem_cons_of_mem _ (List.mem_cons_self _ _), ?_⟩
    show List.IsInfix ("2026-01-22 12:00\n".data)
      ("pmrep -z -a '" ++ archive ++ "' -p kernel.all.load -S '@" ++ "2026-01-22 12:00\n" ++
        "' -T '@" ++ etime ++ "'").data
    refine ⟨("pmrep -z -a '" ++ archive ++ "' -p kernel.all.load -S '@").data,
      ("' -T '@" ++ etime ++ "'").data, ?_⟩
    simp [String.data_append]

/-- Claim C9 witness: a concrete valid time string with a trailing newline is
accepted. -/
theorem trailing_newline_accepted_witness :
    SpecTimeFull "2026-01-22 12:00" ∧
    validate_time ("2026-01-22 12:00" ++ "\n") = true := by
  have hspec : SpecTimeFull "2026-01-22 12:00" :=
    Or.inl ⟨'2', '0', '2', '6', '0', '1', '2', '2', '1', '2', '0', '0', by decide, by decide⟩
  exact ⟨hspec, trailing_newline_accepted.1 "2026-01-22 12:00" hspec⟩

/-- Claim C10 witness: the seconds field is discarded on concrete validated
inputs and the result has twelve characters. -/
theorem time_to_dir_format_spec_witness :
    validate_time "2026-01-22 12:00" = true ∧
    time_to_dir_format "2026-01-22 12:00" = time_to_dir_format "2026-01-22 12:00:59" ∧
    (time_to_dir_format "2026-01-22 12:00").length = 12 :=
  ⟨by decide,
   (time_to_dir_format_spec.1 "2026-01-22 12:00" "2026-01-22 12:01" "2026-01-22 12:00:59"
     "2026-01-22 12:01" (by decide) (by decide) (by decide) (by decide) (by decide)
     (by decide)).1,
   (time_to_dir_format_spec.2 "2026-01-22 12:00" (by decide)).1⟩

end PCP
